import Mathlib

/-!
The memecreator service: caption fitting, compositing and the job pipeline.

A shallow embedding of `renderer.go`, `worker.go` and `modules/meme.go`.

Conventions.
* Go `int` is the 64-bit signed integer of the platforms App Engine runs on.
  Values of type `int` are modelled as `Int`; the only place where the width
  of a machine integer decides behaviour is the conversion to
  `fixed.Int26_6` (an `int32`), modelled by `toInt26_6`, and the arithmetic
  on `fixed.Int26_6` values, which wraps at 32 bits.
* The font library (`freetype`, `truetype`), the image codecs, the datastore,
  the blob store and the task queue are not part of the repository: what the
  repository's code asks of them is taken as a parameter.
-/

namespace Memecreator

/-! ## Fixed-point numbers -/

/-- Conversion to `fixed.Int26_6` (a Go `int32`): two's-complement truncation
to 32 bits, the result lies in `[-2^31, 2^31)`. -/
def toInt26_6 (x : Int) : Int := (x + 2147483648) % 4294967296 - 2147483648

/-- The values representable in `fixed.Int26_6`. -/
def InInt26_6 (x : Int) : Prop := -2147483648 ≤ x ∧ x < 2147483648

instance (x : Int) : Decidable (InInt26_6 x) := by
  unfold InInt26_6; infer_instance

/-! ## Geometry (`image.Point`, `image.Rectangle`, `fixed.Point26_6`) -/

/-- A pair of integer coordinates: `image.Point`, and also `fixed.Point26_6`
when the coordinates are 26.6 fixed-point values. -/
structure Point where
  X : Int
  Y : Int
deriving DecidableEq, Repr

/-- The rectangle `image.Rectangle`: `Min` inclusive, `Max` exclusive. -/
structure Rectangle where
  Min : Point
  Max : Point
deriving DecidableEq, Repr

/-- The method `Rectangle.Dx`: the width `Max.X - Min.X`. -/
def Rectangle.Dx (r : Rectangle) : Int := r.Max.X - r.Min.X

/-- The method `Rectangle.Dy`: the height `Max.Y - Min.Y`. -/
def Rectangle.Dy (r : Rectangle) : Int := r.Max.Y - r.Min.Y

/-- The function `image.Rect`: the rectangle with the given corners, coordinates swapped
where needed so that the result is well-formed. -/
def Rect (x0 y0 x1 y1 : Int) : Rectangle :=
  let (x0, x1) := if x0 > x1 then (x1, x0) else (x0, x1)
  let (y0, y1) := if y0 > y1 then (y1, y0) else (y0, y1)
  ⟨⟨x0, y0⟩, ⟨x1, y1⟩⟩

/-- A rectangle is well-formed when `Min.X ≤ Max.X` and `Min.Y ≤ Max.Y`; the
bounds of every image the `image` package creates or decodes are. -/
def Rectangle.WellFormed (r : Rectangle) : Prop :=
  r.Min.X ≤ r.Max.X ∧ r.Min.Y ≤ r.Max.Y

instance (r : Rectangle) : Decidable r.WellFormed := by
  unfold Rectangle.WellFormed; infer_instance

/-- The method `Rectangle.Empty`: the rectangle contains no point. -/
def Rectangle.Empty (r : Rectangle) : Bool :=
  decide (r.Min.X ≥ r.Max.X) || decide (r.Min.Y ≥ r.Max.Y)

/-- Membership of a point in a rectangle (`Point.In`). -/
def Rectangle.Contains (r : Rectangle) (x y : Int) : Bool :=
  decide (r.Min.X ≤ x) && decide (x < r.Max.X) && decide (r.Min.Y ≤ y) && decide (y < r.Max.Y)

/-- The method `Rectangle.Add`: translation by a point. -/
def Rectangle.Add (r : Rectangle) (p : Point) : Rectangle :=
  ⟨⟨r.Min.X + p.X, r.Min.Y + p.Y⟩, ⟨r.Max.X + p.X, r.Max.Y + p.Y⟩⟩

/-- The method `Rectangle.Intersect`: the largest rectangle contained in both, the zero
rectangle when they do not overlap. -/
def Rectangle.Intersect (r s : Rectangle) : Rectangle :=
  let t : Rectangle :=
    ⟨⟨max r.Min.X s.Min.X, max r.Min.Y s.Min.Y⟩, ⟨min r.Max.X s.Max.X, min r.Max.Y s.Max.Y⟩⟩
  if t.Empty then ⟨⟨0, 0⟩, ⟨0, 0⟩⟩ else t

/-- The function `freetype.Pt`: integer pixel coordinates to a 26.6 fixed-point point,
`fixed.Int26_6(x << 6)` in each coordinate. -/
def Pt (x y : Int) : Point := ⟨toInt26_6 (x * 64), toInt26_6 (y * 64)⟩

/-! ## Colours and images -/

/-- A colour value (`color.Color`), given by what its method `RGBA` returns:
red, green and blue premultiplied by alpha, and alpha, each a 16-bit value. -/
structure Color where
  R : Nat
  G : Nat
  B : Nat
  A : Nat
deriving DecidableEq, Repr

/-- A colour is valid when it is what `RGBA` returns by contract: alpha at
most `0xffff` and no channel above alpha. -/
def Color.Valid (c : Color) : Prop := c.R ≤ c.A ∧ c.G ≤ c.A ∧ c.B ≤ c.A ∧ c.A ≤ 65535

instance (c : Color) : Decidable c.Valid := by
  unfold Color.Valid; infer_instance

/-- A value of `color.NRGBA64`, the pixel type of the canvas: red, green and
blue not premultiplied, and alpha, each a `uint16`. -/
structure NRGBA64 where
  R : Nat
  G : Nat
  B : Nat
  A : Nat
deriving DecidableEq, Repr

/-- The method `RGBA` of `color.NRGBA64`: each channel times alpha, divided
by `0xffff`. -/
def NRGBA64.RGBA (c : NRGBA64) : Color :=
  ⟨c.R * c.A / 65535, c.G * c.A / 65535, c.B * c.A / 65535, c.A⟩

/-- The conversion `color.NRGBA64Model.Convert` (`nrgba64Model` of the
package `image/color`) of a colour given by its `RGBA` channels: an opaque
colour keeps its channels, a fully transparent one becomes zero, any other is
divided by its alpha in `uint32` arithmetic and cut to `uint16`. Writing a
pixel of an `image.NRGBA64` stores this value. -/
def nrgba64Model (c : Color) : NRGBA64 :=
  if c.A = 65535 then ⟨c.R % 65536, c.G % 65536, c.B % 65536, 65535⟩
  else if c.A = 0 then ⟨0, 0, 0, 0⟩
  else ⟨c.R * 65535 % 4294967296 / c.A % 65536, c.G * 65535 % 4294967296 / c.A % 65536,
    c.B * 65535 % 4294967296 / c.A % 65536, c.A % 65536⟩

/-- The colour a pixel of an `image.NRGBA64` shows after the colour `c` was
written to it: the pixel is set to the conversion of `c` and read back by
`RGBA`. -/
def storedNRGBA64 (c : Color) : Color := (nrgba64Model c).RGBA

/-- The zero colour: every pixel of a freshly allocated `image.NRGBA64`. -/
def Color.zero : Color := ⟨0, 0, 0, 0⟩

/-- An image (`image.Image`, `draw.Image`): its bounds and its pixels. -/
structure Image where
  Bounds : Rectangle
  At : Int → Int → Color

/-- The canvas `image.NewNRGBA64` returns, when it returns: the given bounds,
all pixels zero. Whether it returns or panics is `Library.Allocates`. -/
def NewNRGBA64 (r : Rectangle) : Image := ⟨r, fun _ _ => Color.zero⟩

/-- The call `draw.Draw(dst, r, src, sp, draw.Src)`: every pixel of `r`, clipped to the
bounds of `dst` and to the bounds of `src` moved by `r.Min - sp`, is replaced
by the source pixel at the corresponding place, as `dst` stores it: `convert`
is `storedNRGBA64` for an NRGBA64 canvas. -/
def Draw (convert : Color → Color) (dst : Image) (r : Rectangle) (src : Image) (sp : Point) :
    Image :=
  let orig := r.Min
  let r1 := r.Intersect dst.Bounds
  let r2 := r1.Intersect (src.Bounds.Add ⟨orig.X - sp.X, orig.Y - sp.Y⟩)
  { Bounds := dst.Bounds
    At := fun x y =>
      if r2.Contains x y then convert (src.At (x - orig.X + sp.X) (y - orig.Y + sp.Y))
      else dst.At x y }

/-! ## The font face and the drawing context (`truetype.Font`, `freetype.Context`) -/

/-- A parsed font (`truetype.Font`), as far as the renderer uses it. -/
structure Font where
  /-- The value of `f.HMetric(scale, f.Index(r)).AdvanceWidth`. -/
  AdvanceWidth : Int → Char → Int
  /-- One round of the loop of `Context.DrawString` at the given scale: kern
  against the previous rune, rasterise the glyph of the rune at the pen
  position and paint it onto the canvas; the new pen position and the pixels
  of the canvas after painting, or `none` when the glyph cannot be loaded. -/
  drawGlyph : Int → Option Char → Char → Point → Image → Option (Point × (Int → Int → Color))

/-- The drawing context `freetype.Context`: resolution, font size, font and
destination canvas. -/
structure Context where
  dpi : Int
  fontSize : Int
  f : Font
  dst : Image

/-- The method `Context.PointToFixed`: a number of points as a 26.6 fixed-point number of
pixels, `x * dpi * (64 / 72)`. The library computes this in float64; for the
integral arguments the renderer passes (72 points at 72 dpi) the float64
result is the exact value. -/
def Context.PointToFixed (c : Context) (x : Int) : Int := toInt26_6 (x * c.dpi * 64 / 72)

/-- The scale of a context (`Context.recalc`): the font size in 26.6
fixed-point pixels. -/
def Context.scale (c : Context) : Int := toInt26_6 (c.fontSize * c.dpi * 64 / 72)

/-- The method `Context.SetFontSize`. -/
def Context.SetFontSize (c : Context) (fontSize : Int) : Context := { c with fontSize := fontSize }

/-- The loop of `Context.DrawString` over the runes of the string. -/
def drawRunes (f : Font) (scale : Int) : List Char → Option Char → Point → Image →
    Option (Point × Image)
  | [], _, p, dst => some (p, dst)
  | r :: rs, prev, p, dst =>
    match f.drawGlyph scale prev r p dst with
    | none => none
    | some (p1, at1) => drawRunes f scale rs (some r) p1 { dst with At := at1 }

/-- The method `Context.DrawString`: draws the string at the point, returning the context
with the painted canvas, or `none` on a glyph error. -/
def Context.DrawString (c : Context) (s : String) (p : Point) : Option Context :=
  match drawRunes c.f c.scale s.toList none p c.dst with
  | none => none
  | some (_, dst1) => some { c with dst := dst1 }

/-! ## `renderer.go` -/

/-- The candidate sizes of `computeFontSize`, in the order they are tried. -/
def candidateSizes : List Int := [72, 48, 36, 24]

/-- The inner loop of `computeFontSize`: the advance widths of the runes of
the text at one size, accumulated in `fixed.Int26_6`. -/
def textWidth (f : Font) (size : Int) (text : List Char) : Int :=
  text.foldl (fun acc r => toInt26_6 (acc + f.AdvanceWidth size r)) 0

/-- The outer loop of `computeFontSize` over the remaining candidate sizes. -/
def computeFontSizeLoop (f : Font) (text : String) (width : Int) : List Int → Int × Int
  | [] => (0, 24)
  | size :: rest =>
    let tw := textWidth f size text.toList
    if tw ≤ toInt26_6 width then (tw, size) else computeFontSizeLoop f text width rest

/-- The function `computeFontSize`: the width and the size of the first candidate size at
which the text is no wider than `width`, `(0, 24)` when there is none. -/
def computeFontSize (f : Font) (text : String) (width : Int) : Int × Int :=
  computeFontSizeLoop f text width candidateSizes

/-- What `RenderMeme` asks of the font and image libraries. -/
structure Library where
  /-- The result of `freetype.ParseFont`, `none` on an error. -/
  ParseFont : List Nat → Option Font
  /-- Whether `image.NewNRGBA64` returns a canvas of this width and height;
  it panics on dimensions too large for a pixel buffer. -/
  Allocates : Int → Int → Bool
  /-- The result of `image.Decode` (PNG or JPEG), `none` on an error. -/
  Decode : List Nat → Option Image
  /-- The bytes `png.Encode` writes, `none` on an error. -/
  Encode : Image → Option (List Nat)

/-- The ways `RenderMeme` fails: the panic of `image.NewNRGBA64`
(`newImage`), and the errors it returns, by the call that returned them. -/
inductive RenderError where
  | newImage
  | parseFont
  | drawTop
  | drawBottom
deriving DecidableEq, Repr

/-- The context `RenderMeme` sets up: `freetype.NewContext()` (12 points),
`SetDPI(72)`, `SetFont(f)`, `SetDst(dst)`, clip to the bounds of `dst`, white
source, no hinting. -/
def renderContext (f : Font) (dst : Image) : Context :=
  { dpi := 72, fontSize := 12, f := f, dst := dst }

/-- Lines 35 to 38 of `RenderMeme`: fit the top text to the width of the
source, set the font size, and compute the point the text is drawn at.
`>> 6` is the division by 64 rounding down; `/2.0` is Go integer division. -/
def topCaption (c : Context) (srcBounds : Rectangle) (top : String) : Context × Point :=
  let (topTextWidth, topFontSize) := computeFontSize c.f top srcBounds.Dx
  let c := c.SetFontSize topFontSize
  (c, Pt ((srcBounds.Dx - topTextWidth).tdiv 2) (15 + c.PointToFixed 72 / 64))

/-- Lines 44 to 47 of `RenderMeme`: the same for the bottom text. -/
def bottomCaption (c : Context) (srcBounds : Rectangle) (bottom : String) : Context × Point :=
  let (bottomTextWidth, bottomFontSize) := computeFontSize c.f bottom srcBounds.Dx
  let c := c.SetFontSize bottomFontSize
  (c, Pt ((srcBounds.Dx - bottomTextWidth).tdiv 2) ((srcBounds.Dy - 100) + c.PointToFixed 72 / 64))

/-- A call of `Context.DrawString`: the text, the font size the context is
set to, and the point. -/
structure DrawCall where
  text : String
  fontSize : Int
  pt : Point
deriving DecidableEq, Repr

/-- The body of `RenderMeme` in a run in which `image.NewNRGBA64` returns the
canvas: copy the source onto the new NRGBA64 canvas with origin `(0, 0)`, then
draw the top and the bottom text. Returns the calls of `DrawString` it makes,
in order, next to its result. -/
def RenderMemeWithCalls (lib : Library) (fontBytes : List Nat) (src : Image)
    (top bottom : String) : List DrawCall × Except RenderError Image :=
  let srcBounds := src.Bounds
  let newImage := NewNRGBA64 (Rect 0 0 srcBounds.Dx srcBounds.Dy)
  let dst := Draw storedNRGBA64 newImage newImage.Bounds src srcBounds.Min
  match lib.ParseFont fontBytes with
  | none => ([], .error .parseFont)
  | some f =>
    let c := renderContext f dst
    let (c, topPt) := topCaption c srcBounds top
    match c.DrawString top topPt with
    | none => ([⟨top, c.fontSize, topPt⟩], .error .drawTop)
    | some c1 =>
      let (c2, bottomPt) := bottomCaption c1 srcBounds bottom
      match c2.DrawString bottom bottomPt with
      | none => ([⟨top, c.fontSize, topPt⟩, ⟨bottom, c2.fontSize, bottomPt⟩], .error .drawBottom)
      | some c3 => ([⟨top, c.fontSize, topPt⟩, ⟨bottom, c2.fontSize, bottomPt⟩], .ok c3.dst)

/-- The function `RenderMeme`: the new image, or how it failed. The canvas is
allocated first: where `image.NewNRGBA64` panics nothing else runs. -/
def RenderMeme (lib : Library) (fontBytes : List Nat) (src : Image) (top bottom : String) :
    Except RenderError Image :=
  let srcBounds := src.Bounds
  let r := Rect 0 0 srcBounds.Dx srcBounds.Dy
  if lib.Allocates r.Dx r.Dy then (RenderMemeWithCalls lib fontBytes src top bottom).2
  else .error .newImage

/-! ## Records, blobs and tasks -/

/-- A datastore key: the kind and the numeric id. -/
structure Key where
  kind : String
  id : Nat
deriving DecidableEq, Repr

/-- The record `Meme`; `Created` is a time stamp. -/
structure Meme where
  Created : Nat
  Status : String
  TemplateID : String
  Top : String
  Bottom : String
deriving DecidableEq, Repr

/-- The record `Template`. -/
structure Template where
  Created : Nat
  Filename : String
deriving DecidableEq, Repr

/-- An entity of the record store: the properties of a Meme or of a
Template. -/
inductive Entity where
  | meme (m : Meme)
  | template (t : Template)
deriving DecidableEq, Repr

/-- An object of the blob store: its bytes and whether all users may read
it. -/
structure Object where
  data : List Nat
  publicRead : Bool
deriving DecidableEq, Repr

/-- A task of the queue: `taskqueue.NewPOSTTask(path, {"meme_id": ...})`. -/
structure Task where
  path : String
  meme_id : String
deriving DecidableEq, Repr

/-- The state outside the process: record store, blob store (the default
bucket) and task queue. -/
structure State where
  records : Key → Option Entity
  blobs : String → Option Object
  tasks : List Task

/-- The behaviour of the external services during a handler run: how keys are
encoded, which calls fail, the clock, and the embedded font. -/
structure Services where
  /-- The result of `datastore.DecodeKey`, `none` on an error. -/
  DecodeKey : String → Option Key
  /-- The string `Key.Encode` returns. -/
  EncodeKey : Key → String
  /-- Whether `datastore.Get` for this key fails in the service. -/
  getFails : Key → Bool
  /-- Whether `datastore.Put` fails. -/
  putFails : Bool
  /-- The id the datastore assigns to an incomplete key. -/
  newID : Nat
  /-- Whether `storage.NewClient` fails. -/
  newClientFails : Bool
  /-- Whether `file.DefaultBucketName` fails. -/
  bucketNameFails : Bool
  /-- Whether opening a reader on this object fails in the service. -/
  newReaderFails : String → Bool
  /-- Whether closing the writer of this object fails. -/
  closeFails : String → Bool
  /-- Whether setting the ACL of this object fails. -/
  aclFails : String → Bool
  /-- Whether `taskqueue.Add` fails. -/
  addFails : Bool
  /-- The value of `time.Now()`. -/
  now : Nat
  /-- The result of `mime.ParseMediaType` on a Content-Type header, `none`
  on an error. -/
  ParseMediaType : String → Option String
  /-- The embedded font `WorkerFontBytes`. -/
  WorkerFontBytes : List Nat

/-- The three outcomes of `datastore.Get` the handlers distinguish. -/
inductive GetResult (α : Type) where
  | ok (v : α)
  | noSuchEntity
  | failed

/-- The call `datastore.Get(ctx, key, &meme)`: loading the entity of another kind
into a `Meme` is a field mismatch error. -/
def getMeme (sv : Services) (st : State) (key : Key) : GetResult Meme :=
  if sv.getFails key then .failed else
  match st.records key with
  | none => .noSuchEntity
  | some (.meme m) => .ok m
  | some (.template _) => .failed

/-- The call `datastore.Get(ctx, key, &template)`. -/
def getTemplate (sv : Services) (st : State) (key : Key) : GetResult Template :=
  if sv.getFails key then .failed else
  match st.records key with
  | none => .noSuchEntity
  | some (.template t) => .ok t
  | some (.meme _) => .failed

/-- Opening a reader on an object of the bucket and reading it: the bytes, or
`none` when the object does not exist or the service fails. -/
def readObject (sv : Services) (st : State) (name : String) : Option (List Nat) :=
  if sv.newReaderFails name then none else
  match st.blobs name with
  | none => none
  | some o => some o.data

/-- What a handler answers: the status code, the `Location` header, and the
message it logs with `log.Errorf` (empty when it logs nothing). -/
structure Response where
  status : Nat
  location : String
  log : String
deriving DecidableEq, Repr

/-- A response without a `Location` header. -/
def respond (status : Nat) (log : String) : Response := ⟨status, "", log⟩

/-! ## `worker.go` -/

/-- The handler `WorkerHandler`, for the form value `meme_id`. A new object has the
default ACL (not public) until the ACL call; a handler that returns without
writing a status answers 200. Status 0 stands for the handler panicking with
`RenderMeme` (no response is written). -/
def WorkerHandler (lib : Library) (sv : Services) (st : State) (memeID : String) :
    Response × State :=
  match sv.DecodeKey memeID with
  | none => (respond 404 "decoding meme key failed", st)
  | some memeKey =>
  match getMeme sv st memeKey with
  | .noSuchEntity => (respond 404 "meme key not found", st)
  | .failed => (respond 500 "getting meme from datastore failed", st)
  | .ok meme =>
  match sv.DecodeKey meme.TemplateID with
  | none => (respond 404 "decoding template key failed", st)
  | some templateKey =>
  match getTemplate sv st templateKey with
  | .noSuchEntity => (respond 404 "template key not found", st)
  | .failed => (respond 500 "getting template from datastore failed", st)
  | .ok template =>
  if sv.newClientFails then (respond 500 "getting storage client failed", st) else
  if sv.bucketNameFails then (respond 500 "getting storage bucket name failed", st) else
  match readObject sv st template.Filename with
  | none => (respond 500 "getting storage object failed", st)
  | some templateBytes =>
  match lib.Decode templateBytes with
  | none => (respond 500 "decoding template image failed", st)
  | some templateImage =>
  match RenderMeme lib sv.WorkerFontBytes templateImage meme.Top meme.Bottom with
  | .error .newImage => (respond 0 "", st)
  | .error _ => (respond 500 "rendering meme failed", st)
  | .ok memeResult =>
  let name := memeID ++ ".png"
  match lib.Encode memeResult with
  | none => (respond 500 "copying rendered file to cloud storage failed", st)
  | some png =>
  if sv.closeFails name then
    (respond 500 "closing rendered file storage writer failed", st) else
  let st1 := { st with blobs := Function.update st.blobs name (some ⟨png, false⟩) }
  if sv.aclFails name then
    (respond 500 "setting acl on template cloud storage object failed", st1) else
  let st2 := { st1 with blobs := Function.update st1.blobs name (some ⟨png, true⟩) }
  let meme := { meme with Status := "done" }
  if sv.putFails then (respond 500 "updating meme in datastore failed", st2) else
  (respond 200 "", { st2 with records := Function.update st2.records memeKey (some (.meme meme)) })

/-- Every step of a worker run for `memeID` succeeds in the state `st`: the
Meme and its Template are found, the template image is read and decoded,
`RenderMeme` succeeds and its result is encoded to `png`, and the writer is
closed, the ACL set and the record written without an error. -/
def WorkerSteps (lib : Library) (sv : Services) (st : State) (memeID : String)
    (memeKey : Key) (meme : Meme) (template : Template) (png : List Nat) : Prop :=
  sv.DecodeKey memeID = some memeKey ∧ getMeme sv st memeKey = .ok meme ∧
  (∃ templateKey, sv.DecodeKey meme.TemplateID = some templateKey ∧
    getTemplate sv st templateKey = .ok template) ∧
  sv.newClientFails = false ∧ sv.bucketNameFails = false ∧
  (∃ bytes img canvas, readObject sv st template.Filename = some bytes ∧
    lib.Decode bytes = some img ∧
    RenderMeme lib sv.WorkerFontBytes img meme.Top meme.Bottom = .ok canvas ∧
    lib.Encode canvas = some png) ∧
  sv.closeFails (memeID ++ ".png") = false ∧ sv.aclFails (memeID ++ ".png") = false ∧
  sv.putFails = false

/-- The state a worker run leaves when every step succeeds: the object
`<memeID>.png` holds `png` and is public, the Meme has status "done". -/
def doneState (st : State) (memeID : String) (memeKey : Key) (meme : Meme) (png : List Nat) :
    State :=
  { records := Function.update st.records memeKey (some (.meme { meme with Status := "done" }))
    blobs := Function.update (Function.update st.blobs (memeID ++ ".png") (some ⟨png, false⟩))
      (memeID ++ ".png") (some ⟨png, true⟩)
    tasks := st.tasks }

/-! ## `modules/meme.go` -/

/-- The kind of Meme entities, `MemeKind`. -/
def MemeKind : String := "Meme"

/-- The type `CreateMemeCommand`. -/
structure CreateMemeCommand where
  TemplateID : String
  Top : String
  Bottom : String
deriving DecidableEq, Repr

/-- One JSON value of a request body, as `json.Decoder.Decode` into a
`CreateMemeCommand` sees it: the literal `null`, an object with the string
members it has among `template_id`, `top` and `bottom`, or input on which
`Decode` returns an error. -/
inductive JsonDoc where
  | null
  | object (template_id top bottom : Option String)
  | invalid
deriving DecidableEq, Repr

/-- A request: the method, the Content-Type header, and the JSON values the
body holds, after which the body ends. -/
structure Request where
  Method : String
  ContentType : String
  Body : List JsonDoc

/-- The decoding loop of `PostMemesHandler`: `dec.Decode(&cmd)` until
`io.EOF`. `cmd` is a pointer: `null` sets it to nil (`none`), an object is
decoded into the value it points to, a new zero value when it is nil. An
error of `Decode` ends the loop with an error. -/
def decodeLoop : List JsonDoc → Option CreateMemeCommand → Except Unit (Option CreateMemeCommand)
  | [], cmd => .ok cmd
  | .invalid :: _, _ => .error ()
  | .null :: rest, _ => decodeLoop rest none
  | .object t p b :: rest, cmd =>
    let c := cmd.getD ⟨"", "", ""⟩
    decodeLoop rest (some ⟨t.getD c.TemplateID, p.getD c.Top, b.getD c.Bottom⟩)

/-- The call `datastore.Put` of a new Meme under an incomplete key: the key the
datastore assigned and the state with the record, or `none` on an error. -/
def putNewMeme (sv : Services) (st : State) (cmd : CreateMemeCommand) : Option (Key × State) :=
  if sv.putFails then none else
  let memeKey : Key := ⟨MemeKind, sv.newID⟩
  let meme : Meme := ⟨sv.now, "created", cmd.TemplateID, cmd.Top, cmd.Bottom⟩
  some (memeKey, { st with records := Function.update st.records memeKey (some (.meme meme)) })

/-- The call `taskqueue.Add` to the default queue: the state with the task added, or
`none` on an error. -/
def addTask (sv : Services) (st : State) (t : Task) : Option State :=
  if sv.addFails then none else some { st with tasks := st.tasks ++ [t] }

/-- Lines 157 to 190 of `PostMemesHandler`: store the Meme, then enqueue the
task. -/
def storeAndEnqueue (sv : Services) (st : State) (cmd : CreateMemeCommand) : Response × State :=
  match putNewMeme sv st cmd with
  | none => (respond 500 "storing meme in datastore failed", st)
  | some (memeKey, st1) =>
    match addTask sv st1 ⟨"/worker", sv.EncodeKey memeKey⟩ with
    | none => (respond 500 "adding task in queue failed", st1)
    | some st2 => (⟨201, "/memes/" ++ sv.EncodeKey memeKey, ""⟩, st2)

/-- The handler `PostMemesHandler`. Status 0 stands for the handler panicking on the nil
command (no response is written). -/
def PostMemesHandler (sv : Services) (st : State) (r : Request) : Response × State :=
  if r.Method ≠ "POST" then (respond 405 "", st) else
  match sv.ParseMediaType r.ContentType with
  | none => (respond 400 "", st)
  | some mediaType =>
    if mediaType ≠ "application/json" then (respond 400 "", st) else
    match decodeLoop r.Body (some ⟨"", "", ""⟩) with
    | .error _ => (respond 400 "", st)
    | .ok none => (respond 0 "", st)
    | .ok (some cmd) => storeAndEnqueue sv st cmd

/-! ## A sample font and library, for evaluating the definitions -/

/-- Blending white at half coverage over a colour. -/
def blendWhite (c : Color) : Color :=
  ⟨(c.R + 65535) / 2, (c.G + 65535) / 2, (c.B + 65535) / 2, (c.A + 65535) / 2⟩

/-- A font in which every glyph is one em wide (its advance at a scale is
the scale) and paints the pixel under the pen at half coverage. -/
def sampleFont : Font where
  AdvanceWidth := fun scale _ => scale
  drawGlyph := fun scale _ _ p dst =>
    some (⟨toInt26_6 (p.X + scale), p.Y⟩,
      fun x y => if x = p.X / 64 ∧ y = p.Y / 64 ∧ dst.Bounds.Contains x y
        then blendWhite (dst.At x y) else dst.At x y)

/-- The image a byte list `w :: h :: pixels` stands for: `w` by `h` grey
pixels, row by row. -/
def gridImage (w h : Nat) (pixels : List Nat) : Image :=
  ⟨Rect 0 0 w h, fun x y =>
    if 0 ≤ x ∧ x < w ∧ 0 ≤ y ∧ y < h then
      match pixels.get? (y.toNat * w + x.toNat) with
      | some v => ⟨v, v, v, 65535⟩
      | none => Color.zero
    else Color.zero⟩

/-- The grey levels of an image, row by row. -/
def gridPixels (img : Image) : List Nat :=
  (List.range img.Bounds.Dy.toNat).flatMap (fun j =>
    (List.range img.Bounds.Dx.toNat).map (fun i =>
      (img.At (img.Bounds.Min.X + i) (img.Bounds.Min.Y + j)).R))

/-- A library over grey images stored as `w :: h :: pixels`: the font bytes
`[1]` parse to `sampleFont`, a canvas of up to `2^28` pixels is allocated, and
images of width or height zero are not encoded. -/
def sampleLibrary : Library where
  ParseFont := fun b => if b = [1] then some sampleFont else none
  Allocates := fun w h => decide (w * h ≤ 268435456)
  Decode := fun b =>
    match b with
    | w :: h :: pixels => if 0 < w ∧ 0 < h ∧ pixels.length = w * h then some (gridImage w h pixels) else none
    | _ => none
  Encode := fun img =>
    if img.Bounds.Dx ≤ 0 ∨ img.Bounds.Dy ≤ 0 then none
    else some (img.Bounds.Dx.toNat :: img.Bounds.Dy.toNat :: gridPixels img)

/-- The image `RenderMeme` returns on a grey image with the sample library;
the source itself should it fail. -/
def renderedSample (w h : Nat) (pixels : List Nat) (top bottom : String) : Image :=
  match RenderMeme sampleLibrary [1] (gridImage w h pixels) top bottom with
  | .ok img => img
  | .error _ => gridImage w h pixels

/-- An image of one pixel, partly transparent: the colour of an
`image.NRGBA` pixel with red 1 and alpha 254, whose `RGBA` channels are
`(255, 0, 0, 65278)`. -/
def translucentImage : Image := ⟨Rect 0 0 1 1, fun _ _ => ⟨255, 0, 0, 65278⟩⟩

/-- An image of `2^31` by `2^31` pixels, all zero. -/
def hugeImage : Image := ⟨Rect 0 0 2147483648 2147483648, fun _ _ => Color.zero⟩

/-- The pixel at `(x, y)` of the image `RenderMeme` returns with the sample
library, `none` when it fails. -/
def renderedPixel (src : Image) (top bottom : String) (x y : Int) : Option Color :=
  match RenderMeme sampleLibrary [1] src top bottom with
  | .ok img => some (img.At x y)
  | .error _ => none

/-- Keys are written `M<id>` for Memes and `T<id>` for Templates, ids below
ten. -/
def sampleDecodeKey (s : String) : Option Key :=
  match s.toList with
  | [k, d] =>
    if d.isDigit then
      if k = 'M' then some ⟨"Meme", d.toNat - 48⟩
      else if k = 'T' then some ⟨"Template", d.toNat - 48⟩
      else none
    else none
  | _ => none

/-- Services in which no call fails. -/
def sampleServices : Services where
  DecodeKey := sampleDecodeKey
  EncodeKey := fun k => (if k.kind = "Meme" then "M" else "T") ++ toString k.id
  getFails := fun _ => false
  putFails := false
  newID := 7
  newClientFails := false
  bucketNameFails := false
  newReaderFails := fun _ => false
  closeFails := fun _ => false
  aclFails := fun _ => false
  addFails := false
  now := 1000
  ParseMediaType := fun s => if s = "" then none else some s
  WorkerFontBytes := [1]

/-- The empty state. -/
def emptyState : State := ⟨fun _ => none, fun _ => none, []⟩

/-- The Meme `M1`: bottom caption "a" over the Template `T2`. -/
def sampleMeme : Meme := ⟨0, "created", "T2", "", "a"⟩

/-- A state with the Meme `M1`, the Template `T2` and the template's file, a
grey image of one column and 28 rows, under the given name. -/
def readyState (filename : String) : State :=
  ⟨fun k => if k = ⟨"Meme", 1⟩ then some (.meme sampleMeme)
      else if k = ⟨"Template", 2⟩ then some (.template ⟨0, filename⟩) else none,
    fun n => if n = filename then some ⟨1 :: 28 :: List.replicate 28 0, true⟩ else none, []⟩

/-- A state with the Meme `M1` whose Template `T2` does not exist. -/
def missingTemplateState : State :=
  ⟨fun k => if k = ⟨"Meme", 1⟩ then some (.meme sampleMeme) else none, fun _ => none, []⟩

end Memecreator

namespace Memecreator

/-! ## The caption fitter -/

theorem toInt26_6_of_in {x : Int} (h : InInt26_6 x) : toInt26_6 x = x := by
  unfold InInt26_6 at h
  unfold toInt26_6
  omega

theorem toInt26_6_in (x : Int) : InInt26_6 (toInt26_6 x) := by
  unfold InInt26_6 toInt26_6
  omega

theorem textWidth_nil (f : Font) (size : Int) : textWidth f size [] = 0 := rfl

theorem textWidth_in (f : Font) (size : Int) (text : List Char) :
    InInt26_6 (textWidth f size text) := by
  unfold textWidth
  induction text using List.reverseRecOn with
  | nil => simp [InInt26_6]
  | append_singleton rs r _ =>
    rw [List.foldl_append]
    exact toInt26_6_in _

/-- While no partial sum leaves the range of `fixed.Int26_6`, the accumulated
width is the sum of the advance widths. -/
theorem textWidth_eq_sum (f : Font) (size : Int) (text : List Char)
    (h : ∀ n, InInt26_6 ((text.take n).map (f.AdvanceWidth size)).sum) :
    textWidth f size text = (text.map (f.AdvanceWidth size)).sum := by
  unfold textWidth
  induction text using List.reverseRecOn with
  | nil => simp
  | append_singleton rs r ih =>
    have hrs : ∀ n, InInt26_6 ((rs.take n).map (f.AdvanceWidth size)).sum := by
      intro n
      rcases Nat.le_total n rs.length with hn | hn
      · have := h n
        rwa [List.take_append_of_le_length hn] at this
      · have := h rs.length
        rw [List.take_append_of_le_length (Nat.le_refl _), List.take_length] at this
        rwa [List.take_of_length_le hn]
    have hall := h (rs.length + 1)
    rw [List.take_of_length_le (by simp)] at hall
    rw [List.foldl_append, ih hrs]
    simp only [List.foldl_cons, List.foldl_nil, List.map_append, List.sum_append, List.map_cons,
      List.map_nil, List.sum_cons, List.sum_nil, add_zero] at hall ⊢
    exact toInt26_6_of_in hall

/-- C1 (amended): for every font, text and target width `w` representable in
`fixed.Int26_6`, if some candidate size has a trial width (the advance widths
of the runes accumulated in `fixed.Int26_6`) at most `w`, then
`computeFontSize` returns the largest such candidate size together with that
candidate size's trial width, which is at most `w`. -/
theorem computeFontSize_largest_fit (f : Font) (text : String) (w : Int) (hw : InInt26_6 w)
    (hfit : ∃ s ∈ candidateSizes, textWidth f s text.toList ≤ w) :
    ∃ s ∈ candidateSizes, textWidth f s text.toList ≤ w ∧
      (∀ t ∈ candidateSizes, textWidth f t text.toList ≤ w → t ≤ s) ∧
      computeFontSize f text w = (textWidth f s text.toList, s) ∧
      (computeFontSize f text w).1 ≤ w := by
  simp only [candidateSizes, List.mem_cons, List.mem_singleton, List.not_mem_nil, or_false,
    exists_eq_or_imp, exists_eq_left, forall_eq_or_imp, forall_eq] at hfit ⊢
  simp only [computeFontSize, candidateSizes, computeFontSizeLoop, toInt26_6_of_in hw]
  generalize text.toList = cs at hfit ⊢
  by_cases h72 : textWidth f 72 cs ≤ w
  · simp [h72]
  · by_cases h48 : textWidth f 48 cs ≤ w
    · simp [h72, h48]
    · by_cases h36 : textWidth f 36 cs ≤ w
      · simp [h72, h48, h36]
      · by_cases h24 : textWidth f 24 cs ≤ w
        · simp [h72, h48, h36, h24]
        · simp [h72, h48, h36, h24] at hfit

/-- Witness of C1: two one-em glyphs against a width of 100 fit at size 48. -/
theorem computeFontSize_largest_fit_witness :
    InInt26_6 100 ∧ (∃ s ∈ candidateSizes, textWidth sampleFont s "ab".toList ≤ 100) ∧
    ∃ s ∈ candidateSizes, textWidth sampleFont s "ab".toList ≤ 100 ∧
      (∀ t ∈ candidateSizes, textWidth sampleFont t "ab".toList ≤ 100 → t ≤ s) ∧
      computeFontSize sampleFont "ab" 100 = (textWidth sampleFont s "ab".toList, s) ∧
      (computeFontSize sampleFont "ab" 100).1 ≤ 100 :=
  ⟨by decide, ⟨48, by decide, by decide⟩,
    computeFontSize_largest_fit sampleFont "ab" 100 (by decide) ⟨48, by decide, by decide⟩⟩

/-- C1 as stated fails: at the target width `2^32 + 100`, a value of the
64-bit `int`, the text "ab" has trial width 144 at size 72, which is at most
the target width, yet `computeFontSize` compares with the truncated width 100
and returns size 48 with width 96. -/
theorem computeFontSize_wide_target_not_largest :
    textWidth sampleFont 72 "ab".toList = 144 ∧ (144 : Int) ≤ 4294967396 ∧
    (4294967396 : Int) < 9223372036854775808 ∧
    computeFontSize sampleFont "ab" 4294967396 = (96, 48) ∧
    ¬ ∃ s ∈ candidateSizes, textWidth sampleFont s "ab".toList ≤ 4294967396 ∧
      (∀ t ∈ candidateSizes, textWidth sampleFont t "ab".toList ≤ 4294967396 → t ≤ s) ∧
      computeFontSize sampleFont "ab" 4294967396 = (textWidth sampleFont s "ab".toList, s) := by
  decide

/-- C2 (amended): `computeFontSize` is a total function whose size is always
one of the candidate sizes, and for every font, text and target width
`w ≥ -2^31`, if the trial width exceeds `w` at all four candidate sizes it
returns width 0 and size 24. -/
theorem computeFontSize_fallback (f : Font) (text : String) (w : Int) :
    (computeFontSize f text w).2 ∈ candidateSizes ∧
    (-2147483648 ≤ w → (∀ s ∈ candidateSizes, w < textWidth f s text.toList) →
      computeFontSize f text w = (0, 24)) := by
  constructor
  · simp only [computeFontSize, candidateSizes, computeFontSizeLoop]
    split_ifs <;> simp
  · intro hlo hno
    have h72 := hno 72 (by simp [candidateSizes])
    have h48 := hno 48 (by simp [candidateSizes])
    have h36 := hno 36 (by simp [candidateSizes])
    have h24 := hno 24 (by simp [candidateSizes])
    have hin : InInt26_6 w := ⟨hlo, lt_trans h72 (textWidth_in f 72 text.toList).2⟩
    simp only [computeFontSize, candidateSizes, computeFontSizeLoop, toInt26_6_of_in hin]
    rw [if_neg (not_le.mpr h72), if_neg (not_le.mpr h48), if_neg (not_le.mpr h36),
      if_neg (not_le.mpr h24)]

/-- Witness of C2: five one-em glyphs do not fit a width of 100 at any size. -/
theorem computeFontSize_fallback_witness :
    (-2147483648 : Int) ≤ 100 ∧
    (∀ s ∈ candidateSizes, 100 < textWidth sampleFont s "abcde".toList) ∧
    computeFontSize sampleFont "abcde" 100 = (0, 24) :=
  ⟨by decide, by decide,
    (computeFontSize_fallback sampleFont "abcde" 100).2 (by decide) (by decide)⟩

/-- C2 as stated fails: at the target width `-2^32`, a value of the 64-bit
`int`, the trial width 0 of the empty text exceeds the target width at all
four sizes, yet `computeFontSize` compares with the truncated width 0 and
returns size 72. -/
theorem computeFontSize_negative_target_no_fallback :
    (-9223372036854775808 : Int) ≤ -4294967296 ∧
    (∀ s ∈ candidateSizes, -4294967296 < textWidth sampleFont s "".toList) ∧
    computeFontSize sampleFont "" (-4294967296) = (0, 72) ∧
    computeFontSize sampleFont "" (-4294967296) ≠ (0, 24) := by
  decide

/-- C3 (amended): for every font and every width `w` with `0 ≤ w < 2^31`,
`computeFontSize` applied to the empty string returns width 0 and size 72. -/
theorem computeFontSize_empty_text (f : Font) (w : Int) (hw : 0 ≤ w ∧ w < 2147483648) :
    computeFontSize f "" w = (0, 72) := by
  have h : toInt26_6 w = w := toInt26_6_of_in ⟨by omega, hw.2⟩
  simp [computeFontSize, candidateSizes, computeFontSizeLoop, textWidth, h, hw.1]

/-- Witness of C3: the empty text against a width of 500. -/
theorem computeFontSize_empty_text_witness :
    ((0 : Int) ≤ 500 ∧ (500 : Int) < 2147483648) ∧ computeFontSize sampleFont "" 500 = (0, 72) :=
  ⟨by decide, computeFontSize_empty_text sampleFont 500 (by decide)⟩

/-- C3 as stated fails: the width `2^31` is a non-negative value of the 64-bit
`int`, its conversion to `fixed.Int26_6` is `-2^31`, and `computeFontSize`
applied to the empty string returns size 24. -/
theorem computeFontSize_empty_text_wide_target :
    (0 : Int) ≤ 2147483648 ∧ (2147483648 : Int) < 9223372036854775808 ∧
    toInt26_6 2147483648 = -2147483648 ∧
    computeFontSize sampleFont "" 2147483648 = (0, 24) ∧
    computeFontSize sampleFont "" 2147483648 ≠ (0, 72) := by
  decide

end Memecreator

namespace Memecreator

/-! ## The compositor -/

theorem DrawString_fields {c c1 : Context} {s : String} {p : Point}
    (h : c.DrawString s p = some c1) :
    c1.dpi = c.dpi ∧ c1.fontSize = c.fontSize ∧ c1.f = c.f := by
  unfold Context.DrawString at h
  split at h
  · cases h
  · cases h; exact ⟨rfl, rfl, rfl⟩

theorem drawRunes_bounds (f : Font) (scale : Int) (rs : List Char) (prev : Option Char)
    (p q : Point) (dst out : Image) (h : drawRunes f scale rs prev p dst = some (q, out)) :
    out.Bounds = dst.Bounds := by
  induction rs generalizing prev p dst with
  | nil => simp only [drawRunes, Option.some.injEq, Prod.mk.injEq] at h; rw [← h.2]
  | cons r rs ih =>
    unfold drawRunes at h
    split at h
    · cases h
    · have := ih _ _ _ h; simpa using this

theorem DrawString_bounds {c c1 : Context} {s : String} {p : Point}
    (h : c.DrawString s p = some c1) : c1.dst.Bounds = c.dst.Bounds := by
  unfold Context.DrawString at h
  split at h
  · cases h
  · rename_i q out hr
    cases h
    exact drawRunes_bounds _ _ _ _ _ _ _ _ hr

theorem DrawString_empty (c : Context) (p : Point) : c.DrawString "" p = some c := by
  simp [Context.DrawString, drawRunes]

theorem PointToFixed_72 (c : Context) (h : c.dpi = 72) : c.PointToFixed 72 / 64 = 72 := by
  unfold Context.PointToFixed
  rw [h]
  decide

/-- The point and the font size of the top caption. -/
theorem topCaption_eq (c : Context) (b : Rectangle) (top : String) (h : c.dpi = 72) :
    topCaption c b top =
      (c.SetFontSize (computeFontSize c.f top b.Dx).2,
        Pt ((b.Dx - (computeFontSize c.f top b.Dx).1).tdiv 2) (15 + 72)) := by
  unfold topCaption
  have := PointToFixed_72 (c.SetFontSize (computeFontSize c.f top b.Dx).2) h
  simp only [this]

/-- The point and the font size of the bottom caption. -/
theorem bottomCaption_eq (c : Context) (b : Rectangle) (bottom : String) (h : c.dpi = 72) :
    bottomCaption c b bottom =
      (c.SetFontSize (computeFontSize c.f bottom b.Dx).2,
        Pt ((b.Dx - (computeFontSize c.f bottom b.Dx).1).tdiv 2) (b.Dy - 100 + 72)) := by
  unfold bottomCaption
  have := PointToFixed_72 (c.SetFontSize (computeFontSize c.f bottom b.Dx).2) h
  simp only [this]

/-- A run of `RenderMeme` that returns an image allocated the canvas, and
the image is the result of the body. -/
theorem RenderMeme_ok {lib : Library} {fontBytes : List Nat} {src : Image}
    {top bottom : String} {img : Image}
    (h : RenderMeme lib fontBytes src top bottom = .ok img) :
    lib.Allocates (Rect 0 0 src.Bounds.Dx src.Bounds.Dy).Dx
        (Rect 0 0 src.Bounds.Dx src.Bounds.Dy).Dy = true ∧
      (RenderMemeWithCalls lib fontBytes src top bottom).2 = .ok img := by
  unfold RenderMeme at h
  simp only at h
  split at h
  · rename_i ha
    exact ⟨ha, h⟩
  · cases h

/-- The calls of `DrawString` that `RenderMeme` makes once the font is
parsed: the top caption, and after it the bottom caption. -/
theorem RenderMemeWithCalls_calls (lib : Library) (fontBytes : List Nat) (src : Image)
    (top bottom : String) (f : Font) (hf : lib.ParseFont fontBytes = some f) :
    let W := src.Bounds.Dx
    let H := src.Bounds.Dy
    let call1 : DrawCall := ⟨top, (computeFontSize f top W).2,
      Pt ((W - (computeFontSize f top W).1).tdiv 2) (15 + 72)⟩
    let call2 : DrawCall := ⟨bottom, (computeFontSize f bottom W).2,
      Pt ((W - (computeFontSize f bottom W).1).tdiv 2) (H - 100 + 72)⟩
    let r := RenderMemeWithCalls lib fontBytes src top bottom
    (r.1 = [call1] ∧ r.2 = .error .drawTop) ∨
    (r.1 = [call1, call2] ∧ (r.2 = .error .drawBottom ∨ ∃ img, r.2 = .ok img)) := by
  intro W H call1 call2 r
  simp only [r, RenderMemeWithCalls, hf]
  rw [topCaption_eq _ _ _ rfl]
  simp only [renderContext, Context.SetFontSize]
  split
  · left; exact ⟨rfl, rfl⟩
  · rename_i c1 h1
    obtain ⟨hdpi, hfs, hff⟩ := DrawString_fields h1
    rw [bottomCaption_eq _ _ _ hdpi]
    simp only [Context.SetFontSize, hff]
    right
    split
    · exact ⟨rfl, Or.inl rfl⟩
    · exact ⟨rfl, Or.inr ⟨_, rfl⟩⟩

/-- What `computeFontSize` returns as width: the trial width at the size it
returns when some candidate size fits the truncated width, and 0 with size 24
when none does. -/
theorem computeFontSize_width (f : Font) (text : String) (w : Int) :
    ((∃ s ∈ candidateSizes, textWidth f s text.toList ≤ toInt26_6 w) →
      (computeFontSize f text w).1 = textWidth f (computeFontSize f text w).2 text.toList) ∧
    ((∀ s ∈ candidateSizes, toInt26_6 w < textWidth f s text.toList) →
      computeFontSize f text w = (0, 24)) := by
  simp only [candidateSizes, List.mem_cons, List.mem_singleton, List.not_mem_nil, or_false,
    exists_eq_or_imp, exists_eq_left, forall_eq_or_imp, forall_eq]
  simp only [computeFontSize, candidateSizes, computeFontSizeLoop]
  generalize text.toList = cs
  generalize toInt26_6 w = v
  constructor
  · intro hfit
    by_cases h72 : textWidth f 72 cs ≤ v
    · simp [h72]
    · by_cases h48 : textWidth f 48 cs ≤ v
      · simp [h72, h48]
      · by_cases h36 : textWidth f 36 cs ≤ v
        · simp [h72, h48, h36]
        · by_cases h24 : textWidth f 24 cs ≤ v
          · simp [h72, h48, h36, h24]
          · simp [h72, h48, h36, h24] at hfit
  · rintro ⟨h72, h48, h36, h24⟩
    rw [if_neg (not_le.mpr h72), if_neg (not_le.mpr h48), if_neg (not_le.mpr h36),
      if_neg (not_le.mpr h24)]

/-- C4 (amended): for every source image of height H and every pair of
captions, once the font is parsed `RenderMeme` draws the top caption with
baseline y = 15 + 72 and, when that succeeds, the bottom caption with baseline
y = H - 100 + 72, each with the context set to the font size
`computeFontSize` chose for it: the offset below 15 and below H - 100 is the
constant `PointToFixed(72) >> 6 = 72`, whatever size was fitted. -/
theorem RenderMeme_baselines (lib : Library) (fontBytes : List Nat) (src : Image)
    (top bottom : String) (f : Font) (hf : lib.ParseFont fontBytes = some f) :
    ∃ x1 x2 : Int,
      let call1 : DrawCall := ⟨top, (computeFontSize f top src.Bounds.Dx).2, Pt x1 (15 + 72)⟩
      let call2 : DrawCall :=
        ⟨bottom, (computeFontSize f bottom src.Bounds.Dx).2, Pt x2 (src.Bounds.Dy - 100 + 72)⟩
      ((RenderMemeWithCalls lib fontBytes src top bottom).1 = [call1] ∨
        (RenderMemeWithCalls lib fontBytes src top bottom).1 = [call1, call2]) ∧
      (∀ img, RenderMeme lib fontBytes src top bottom = .ok img →
        (RenderMemeWithCalls lib fontBytes src top bottom).1 = [call1, call2]) := by
  refine ⟨(src.Bounds.Dx - (computeFontSize f top src.Bounds.Dx).1).tdiv 2,
    (src.Bounds.Dx - (computeFontSize f bottom src.Bounds.Dx).1).tdiv 2, ?_⟩
  have h := RenderMemeWithCalls_calls lib fontBytes src top bottom f hf
  simp only at h ⊢
  rcases h with ⟨h1, h2⟩ | ⟨h1, _⟩
  · refine ⟨Or.inl h1, ?_⟩
    intro img himg
    have himg2 := (RenderMeme_ok himg).2
    rw [h2] at himg2
    cases himg2
  · exact ⟨Or.inr h1, fun _ _ => h1⟩

/-- Witness of C4: a 100 by 200 image, "ab" fitted at 48 and "abcde" at 24. -/
theorem RenderMeme_baselines_witness :
    sampleLibrary.ParseFont [1] = some sampleFont ∧
    ∃ x1 x2 : Int,
      let call1 : DrawCall :=
        ⟨"ab", (computeFontSize sampleFont "ab" (gridImage 100 200 []).Bounds.Dx).2, Pt x1 (15 + 72)⟩
      let call2 : DrawCall :=
        ⟨"abcde", (computeFontSize sampleFont "abcde" (gridImage 100 200 []).Bounds.Dx).2,
          Pt x2 ((gridImage 100 200 []).Bounds.Dy - 100 + 72)⟩
      ((RenderMemeWithCalls sampleLibrary [1] (gridImage 100 200 []) "ab" "abcde").1 = [call1] ∨
        (RenderMemeWithCalls sampleLibrary [1] (gridImage 100 200 []) "ab" "abcde").1 =
          [call1, call2]) ∧
      (∀ img, RenderMeme sampleLibrary [1] (gridImage 100 200 []) "ab" "abcde" = .ok img →
        (RenderMemeWithCalls sampleLibrary [1] (gridImage 100 200 []) "ab" "abcde").1 =
          [call1, call2]) :=
  ⟨rfl, RenderMeme_baselines sampleLibrary [1] (gridImage 100 200 []) "ab" "abcde" sampleFont rfl⟩

/-- C4 as stated fails: on a 100 by 200 image the top caption "ab" is fitted
at size 48 and the bottom caption "abcde" at size 24, and they are drawn with
baselines 87 and 172, not 15 + 48 and 200 - 100 + 24. -/
theorem RenderMeme_baseline_not_fitted_size :
    (computeFontSize sampleFont "ab" 100).2 = 48 ∧
    (computeFontSize sampleFont "abcde" 100).2 = 24 ∧
    (RenderMemeWithCalls sampleLibrary [1] (gridImage 100 200 []) "ab" "abcde").1 =
      [⟨"ab", 48, Pt 2 87⟩, ⟨"abcde", 24, Pt 50 172⟩] ∧
    (Pt 2 87).Y ≠ (Pt 2 (15 + 48)).Y ∧ (Pt 50 172).Y ≠ (Pt 50 (200 - 100 + 24)).Y := by
  decide

/-- C5 (amended): once the font is parsed, `RenderMeme` draws each caption at
x = (W - fw) / 2 (Go integer division), where W is the width of the source and
fw the width `computeFontSize` returned for the caption; fw is the trial width
at the font size the caption is drawn at whenever some candidate size fits W
(as converted to `fixed.Int26_6`), and fw is 0, with size 24, when none
fits. -/
theorem RenderMeme_centering (lib : Library) (fontBytes : List Nat) (src : Image)
    (top bottom : String) (f : Font) (hf : lib.ParseFont fontBytes = some f) :
    (∃ y1 y2 : Int,
      let W := src.Bounds.Dx
      let call1 : DrawCall :=
        ⟨top, (computeFontSize f top W).2, Pt ((W - (computeFontSize f top W).1).tdiv 2) y1⟩
      let call2 : DrawCall :=
        ⟨bottom, (computeFontSize f bottom W).2,
          Pt ((W - (computeFontSize f bottom W).1).tdiv 2) y2⟩
      ((RenderMemeWithCalls lib fontBytes src top bottom).1 = [call1] ∨
        (RenderMemeWithCalls lib fontBytes src top bottom).1 = [call1, call2]) ∧
      (∀ img, RenderMeme lib fontBytes src top bottom = .ok img →
        (RenderMemeWithCalls lib fontBytes src top bottom).1 = [call1, call2])) ∧
    (∀ text : String,
      ((∃ s ∈ candidateSizes, textWidth f s text.toList ≤ toInt26_6 src.Bounds.Dx) →
        (computeFontSize f text src.Bounds.Dx).1 =
          textWidth f (computeFontSize f text src.Bounds.Dx).2 text.toList) ∧
      ((∀ s ∈ candidateSizes, toInt26_6 src.Bounds.Dx < textWidth f s text.toList) →
        computeFontSize f text src.Bounds.Dx = (0, 24))) := by
  refine ⟨⟨15 + 72, src.Bounds.Dy - 100 + 72, ?_⟩,
    fun text => computeFontSize_width f text src.Bounds.Dx⟩
  have h := RenderMemeWithCalls_calls lib fontBytes src top bottom f hf
  simp only at h ⊢
  rcases h with ⟨h1, h2⟩ | ⟨h1, _⟩
  · refine ⟨Or.inl h1, ?_⟩
    intro img himg
    have himg2 := (RenderMeme_ok himg).2
    rw [h2] at himg2
    cases himg2
  · exact ⟨Or.inr h1, fun _ _ => h1⟩

/-- Witness of C5: a 100 by 200 image, "ab" fitted at 48 and "abcde" not
fitted. -/
theorem RenderMeme_centering_witness :
    sampleLibrary.ParseFont [1] = some sampleFont ∧
    (RenderMemeWithCalls sampleLibrary [1] (gridImage 100 200 []) "ab" "abcde").1 =
      [⟨"ab", 48, Pt ((100 - 96 : Int).tdiv 2) 87⟩, ⟨"abcde", 24, Pt ((100 - 0 : Int).tdiv 2) 172⟩] ∧
    (∀ text : String,
      ((∃ s ∈ candidateSizes,
          textWidth sampleFont s text.toList ≤ toInt26_6 (gridImage 100 200 []).Bounds.Dx) →
        (computeFontSize sampleFont text (gridImage 100 200 []).Bounds.Dx).1 =
          textWidth sampleFont (computeFontSize sampleFont text (gridImage 100 200 []).Bounds.Dx).2
            text.toList) ∧
      ((∀ s ∈ candidateSizes,
          toInt26_6 (gridImage 100 200 []).Bounds.Dx < textWidth sampleFont s text.toList) →
        computeFontSize sampleFont text (gridImage 100 200 []).Bounds.Dx = (0, 24))) :=
  ⟨rfl, by decide,
    (RenderMeme_centering sampleLibrary [1] (gridImage 100 200 []) "ab" "abcde" sampleFont rfl).2⟩

/-- C5 as stated fails: on a canvas of width 100 the caption "abcde" fits at
no candidate size; it is drawn at size 24, where its trial width is 120, and
it starts at x = 100 / 2 = 50, not at (100 - 120) / 2. -/
theorem RenderMeme_fallback_not_centred :
    (RenderMemeWithCalls sampleLibrary [1] (gridImage 100 200 []) "abcde" "").1 =
      [⟨"abcde", 24, Pt 50 87⟩, ⟨"", 72, Pt 50 172⟩] ∧
    textWidth sampleFont 24 "abcde".toList = 120 ∧
    (Pt 50 87).X ≠ (Pt ((100 - 120 : Int).tdiv 2) 87).X ∧
    (Pt 50 87).X ≠ (Pt ((100 - 120 : Int) / 2) 87).X := by
  decide

theorem Rect_origin_Dx (a b : Int) (ha : 0 ≤ a) : (Rect 0 0 a b).Dx = a := by
  unfold Rect Rectangle.Dx
  have : ¬ (0 : Int) > a := by omega
  simp only [this, if_false]
  simp

theorem Rect_origin_Dy (a b : Int) (hb : 0 ≤ b) : (Rect 0 0 a b).Dy = b := by
  unfold Rect Rectangle.Dy
  have : ¬ (0 : Int) > b := by omega
  simp only [this, if_false]
  simp

/-- The bounds of the image `RenderMeme` returns. -/
theorem RenderMeme_bounds (lib : Library) (fontBytes : List Nat) (src : Image)
    (top bottom : String) (img : Image)
    (h : RenderMeme lib fontBytes src top bottom = .ok img) :
    img.Bounds = Rect 0 0 src.Bounds.Dx src.Bounds.Dy := by
  replace h := (RenderMeme_ok h).2
  unfold RenderMemeWithCalls at h
  simp only at h
  split at h
  · cases h
  · split at h
    · cases h
    · rename_i c1 h1
      split at h
      · cases h
      · rename_i c3 h3
        cases h
        rw [DrawString_bounds h3]
        simp only [bottomCaption, Context.SetFontSize]
        rw [DrawString_bounds h1]
        simp [topCaption, Context.SetFontSize, renderContext, Draw, NewNRGBA64]

/-- C6: for every source image with well-formed bounds, whatever their
origin, and every pair of captions, whenever `RenderMeme` succeeds the image
it returns has the width and the height of the source. -/
theorem RenderMeme_same_dimensions (lib : Library) (fontBytes : List Nat) (src : Image)
    (top bottom : String) (img : Image) (hwf : src.Bounds.WellFormed)
    (h : RenderMeme lib fontBytes src top bottom = .ok img) :
    img.Bounds.Dx = src.Bounds.Dx ∧ img.Bounds.Dy = src.Bounds.Dy := by
  rw [RenderMeme_bounds lib fontBytes src top bottom img h]
  have hx : 0 ≤ src.Bounds.Dx := by unfold Rectangle.Dx; have := hwf.1; omega
  have hy : 0 ≤ src.Bounds.Dy := by unfold Rectangle.Dy; have := hwf.2; omega
  exact ⟨Rect_origin_Dx _ _ hx, Rect_origin_Dy _ _ hy⟩

end Memecreator

namespace Memecreator

/-- Witness of C6: a 2 by 2 image with captions "a" and "". -/
theorem RenderMeme_same_dimensions_witness :
    (gridImage 2 2 [5, 6, 7, 8]).Bounds.WellFormed ∧
    RenderMeme sampleLibrary [1] (gridImage 2 2 [5, 6, 7, 8]) "a" "" =
      .ok (renderedSample 2 2 [5, 6, 7, 8] "a" "") ∧
    (renderedSample 2 2 [5, 6, 7, 8] "a" "").Bounds.Dx = (gridImage 2 2 [5, 6, 7, 8]).Bounds.Dx ∧
    (renderedSample 2 2 [5, 6, 7, 8] "a" "").Bounds.Dy = (gridImage 2 2 [5, 6, 7, 8]).Bounds.Dy :=
  ⟨by decide, rfl,
    RenderMeme_same_dimensions sampleLibrary [1] (gridImage 2 2 [5, 6, 7, 8]) "a" ""
      (renderedSample 2 2 [5, 6, 7, 8] "a" "") (by decide) rfl⟩

theorem Contains_Rect_origin (a b x y : Int) (ha : 0 ≤ a) (hb : 0 ≤ b)
    (h : (Rect 0 0 a b).Contains x y = true) : 0 ≤ x ∧ x < a ∧ 0 ≤ y ∧ y < b := by
  unfold Rect Rectangle.Contains at h
  have h1 : ¬ (0 : Int) > a := by omega
  have h2 : ¬ (0 : Int) > b := by omega
  simp only [h1, h2, if_false, Bool.and_eq_true, decide_eq_true_eq] at h
  omega

/-- The canvas after the copy of the source: inside the bounds every pixel is
the converted source pixel at the same offset from the origin of the source. -/
theorem Draw_copy (convert : Color → Color) (src : Image) (hwf : src.Bounds.WellFormed)
    (x y : Int)
    (hin : (Rect 0 0 src.Bounds.Dx src.Bounds.Dy).Contains x y = true) :
    (Draw convert (NewNRGBA64 (Rect 0 0 src.Bounds.Dx src.Bounds.Dy))
      (NewNRGBA64 (Rect 0 0 src.Bounds.Dx src.Bounds.Dy)).Bounds src src.Bounds.Min).At x y =
      convert (src.At (src.Bounds.Min.X + x) (src.Bounds.Min.Y + y)) := by
  have hx : 0 ≤ src.Bounds.Dx := by unfold Rectangle.Dx; have := hwf.1; omega
  have hy : 0 ≤ src.Bounds.Dy := by unfold Rectangle.Dy; have := hwf.2; omega
  obtain ⟨h1, h2, h3, h4⟩ := Contains_Rect_origin _ _ _ _ hx hy hin
  have hr : Rect 0 0 src.Bounds.Dx src.Bounds.Dy = ⟨⟨0, 0⟩, ⟨src.Bounds.Dx, src.Bounds.Dy⟩⟩ := by
    unfold Rect
    have h1 : ¬ (0 : Int) > src.Bounds.Dx := by omega
    have h2 : ¬ (0 : Int) > src.Bounds.Dy := by omega
    simp [h1, h2]
  rw [hr]
  unfold Rectangle.Dx Rectangle.Dy at *
  have e1 : ¬ (src.Bounds.Max.X - src.Bounds.Min.X ≤ 0) := by omega
  have e2 : ¬ (src.Bounds.Max.Y - src.Bounds.Min.Y ≤ 0) := by omega
  simp [Draw, NewNRGBA64, Rectangle.Intersect, Rectangle.Empty, Rectangle.Add,
    Rectangle.Contains, e1, e2, h1, h2, h3, h4]
  rw [add_comm x, add_comm y]

/-- An opaque or fully transparent valid colour written to a pixel of an
`image.NRGBA64` is read back as it was. -/
theorem storedNRGBA64_exact (c : Color) (hv : c.Valid) (ha : c.A = 65535 ∨ c.A = 0) :
    storedNRGBA64 c = c := by
  obtain ⟨r, g, b, a⟩ := c
  obtain ⟨h1, h2, h3, h4⟩ := hv
  simp only at h1 h2 h3 h4 ha
  rcases ha with ha | ha
  · subst ha
    have e1 : r % 65536 = r := Nat.mod_eq_of_lt (by omega)
    have e2 : g % 65536 = g := Nat.mod_eq_of_lt (by omega)
    have e3 : b % 65536 = b := Nat.mod_eq_of_lt (by omega)
    simp [storedNRGBA64, nrgba64Model, NRGBA64.RGBA, e1, e2, e3]
  · subst ha
    have e1 : r = 0 := by omega
    have e2 : g = 0 := by omega
    have e3 : b = 0 := by omega
    subst e1 e2 e3
    simp [storedNRGBA64, nrgba64Model, NRGBA64.RGBA]

/-- C7 (amended): for every source image with well-formed bounds whose
canvas `image.NewNRGBA64` allocates, and every font that parses, `RenderMeme`
with the empty string for both captions succeeds and draws no text: the pixel
of the canvas at each (x, y) within its bounds is the source pixel at
(srcMin.x + x, srcMin.y + y) as an NRGBA64 pixel stores it (divided by its
alpha on writing, multiplied by it on reading). It equals the source pixel
whenever that pixel is a valid colour that is opaque or fully transparent. -/
theorem RenderMeme_empty_captions (lib : Library) (fontBytes : List Nat) (src : Image) (f : Font)
    (hwf : src.Bounds.WellFormed)
    (halloc : lib.Allocates src.Bounds.Dx src.Bounds.Dy = true)
    (hf : lib.ParseFont fontBytes = some f) :
    ∃ img, RenderMeme lib fontBytes src "" "" = .ok img ∧
      (RenderMemeWithCalls lib fontBytes src "" "").1.map (fun c => c.text) = ["", ""] ∧
      img.Bounds = Rect 0 0 src.Bounds.Dx src.Bounds.Dy ∧
      ∀ x y, img.Bounds.Contains x y = true →
        img.At x y = storedNRGBA64 (src.At (src.Bounds.Min.X + x) (src.Bounds.Min.Y + y)) ∧
        ((src.At (src.Bounds.Min.X + x) (src.Bounds.Min.Y + y)).Valid →
          ((src.At (src.Bounds.Min.X + x) (src.Bounds.Min.Y + y)).A = 65535 ∨
            (src.At (src.Bounds.Min.X + x) (src.Bounds.Min.Y + y)).A = 0) →
          img.At x y = src.At (src.Bounds.Min.X + x) (src.Bounds.Min.Y + y)) := by
  have hx : 0 ≤ src.Bounds.Dx := by unfold Rectangle.Dx; have := hwf.1; omega
  have hy : 0 ≤ src.Bounds.Dy := by unfold Rectangle.Dy; have := hwf.2; omega
  refine ⟨Draw storedNRGBA64 (NewNRGBA64 (Rect 0 0 src.Bounds.Dx src.Bounds.Dy))
      (NewNRGBA64 (Rect 0 0 src.Bounds.Dx src.Bounds.Dy)).Bounds src src.Bounds.Min, ?_, ?_, ?_, ?_⟩
  · simp [RenderMeme, Rect_origin_Dx _ _ hx, Rect_origin_Dy _ _ hy, halloc,
      RenderMemeWithCalls, hf, DrawString_empty, topCaption, bottomCaption,
      Context.SetFontSize, renderContext]
  · simp [RenderMemeWithCalls, hf, DrawString_empty, topCaption, bottomCaption,
      Context.SetFontSize, renderContext]
  · simp [Draw, NewNRGBA64]
  · intro x y hin
    have hcopy := Draw_copy storedNRGBA64 src hwf x y (by simpa [Draw, NewNRGBA64] using hin)
    refine ⟨hcopy, ?_⟩
    intro hv ha
    rw [hcopy]
    exact storedNRGBA64_exact _ hv ha

/-- Witness of C7: a 2 by 2 image of opaque grey pixels. -/
theorem RenderMeme_empty_captions_witness :
    (gridImage 2 2 [5, 6, 7, 8]).Bounds.WellFormed ∧
    sampleLibrary.Allocates (gridImage 2 2 [5, 6, 7, 8]).Bounds.Dx
      (gridImage 2 2 [5, 6, 7, 8]).Bounds.Dy = true ∧
    sampleLibrary.ParseFont [1] = some sampleFont ∧
    renderedPixel (gridImage 2 2 [5, 6, 7, 8]) "" "" 1 1 = some ⟨8, 8, 8, 65535⟩ ∧
    ∃ img, RenderMeme sampleLibrary [1] (gridImage 2 2 [5, 6, 7, 8]) "" "" = .ok img ∧
      (RenderMemeWithCalls sampleLibrary [1] (gridImage 2 2 [5, 6, 7, 8]) "" "").1.map
        (fun c => c.text) = ["", ""] ∧
      img.Bounds = Rect 0 0 (gridImage 2 2 [5, 6, 7, 8]).Bounds.Dx
        (gridImage 2 2 [5, 6, 7, 8]).Bounds.Dy ∧
      ∀ x y, img.Bounds.Contains x y = true →
        img.At x y = storedNRGBA64
          ((gridImage 2 2 [5, 6, 7, 8]).At ((gridImage 2 2 [5, 6, 7, 8]).Bounds.Min.X + x)
            ((gridImage 2 2 [5, 6, 7, 8]).Bounds.Min.Y + y)) ∧
        (((gridImage 2 2 [5, 6, 7, 8]).At ((gridImage 2 2 [5, 6, 7, 8]).Bounds.Min.X + x)
            ((gridImage 2 2 [5, 6, 7, 8]).Bounds.Min.Y + y)).Valid →
          (((gridImage 2 2 [5, 6, 7, 8]).At ((gridImage 2 2 [5, 6, 7, 8]).Bounds.Min.X + x)
              ((gridImage 2 2 [5, 6, 7, 8]).Bounds.Min.Y + y)).A = 65535 ∨
            ((gridImage 2 2 [5, 6, 7, 8]).At ((gridImage 2 2 [5, 6, 7, 8]).Bounds.Min.X + x)
              ((gridImage 2 2 [5, 6, 7, 8]).Bounds.Min.Y + y)).A = 0) →
          img.At x y =
            (gridImage 2 2 [5, 6, 7, 8]).At ((gridImage 2 2 [5, 6, 7, 8]).Bounds.Min.X + x)
              ((gridImage 2 2 [5, 6, 7, 8]).Bounds.Min.Y + y)) :=
  ⟨by decide, by decide, rfl, by decide,
    RenderMeme_empty_captions sampleLibrary [1] (gridImage 2 2 [5, 6, 7, 8]) sampleFont
      (by decide) (by decide) rfl⟩

/-- C7 as stated fails. A source of one partly transparent pixel, the colour
of an `image.NRGBA` pixel with red 1 and alpha 254 (channels
`(255, 0, 0, 65278)`), is stored in the canvas as the NRGBA64 value
`(256, 0, 0, 65278)`, and the pixel of the returned canvas is
`(254, 0, 0, 65278)`, not the source pixel. And on a source of `2^31` by
`2^31` pixels, whose canvas is not allocated, `RenderMeme` does not succeed. -/
theorem RenderMeme_translucent_pixel_altered :
    translucentImage.Bounds.WellFormed ∧
    (Rect 0 0 translucentImage.Bounds.Dx translucentImage.Bounds.Dy).Contains 0 0 = true ∧
    translucentImage.At 0 0 = ⟨255, 0, 0, 65278⟩ ∧
    (translucentImage.At 0 0).Valid ∧
    nrgba64Model ⟨255, 0, 0, 65278⟩ = ⟨256, 0, 0, 65278⟩ ∧
    renderedPixel translucentImage "" "" 0 0 = some ⟨254, 0, 0, 65278⟩ ∧
    renderedPixel translucentImage "" "" 0 0 ≠ some (translucentImage.At 0 0) ∧
    hugeImage.Bounds.WellFormed ∧
    renderedPixel hugeImage "" "" 0 0 = none := by
  decide

end Memecreator

namespace Memecreator

/-! ## The worker -/

/-- A worker run that answers 200 went through every step, and leaves the
state `doneState`. -/
theorem WorkerHandler_ok (lib : Library) (sv : Services) (st : State) (memeID : String)
    (h : (WorkerHandler lib sv st memeID).1.status = 200) :
    ∃ memeKey meme template png, WorkerSteps lib sv st memeID memeKey meme template png ∧
      WorkerHandler lib sv st memeID = (respond 200 "", doneState st memeID memeKey meme png) := by
  unfold WorkerHandler at h ⊢
  cases hk : sv.DecodeKey memeID with
  | none => simp [hk, respond] at h
  | some memeKey =>
  cases hm : getMeme sv st memeKey with
  | noSuchEntity => simp [hk, hm, respond] at h
  | failed => simp [hk, hm, respond] at h
  | ok meme =>
  cases htk : sv.DecodeKey meme.TemplateID with
  | none => simp [hk, hm, htk, respond] at h
  | some templateKey =>
  cases ht : getTemplate sv st templateKey with
  | noSuchEntity => simp [hk, hm, htk, ht, respond] at h
  | failed => simp [hk, hm, htk, ht, respond] at h
  | ok template =>
  cases hc : sv.newClientFails with
  | true => simp [hk, hm, htk, ht, hc, respond] at h
  | false =>
  cases hb : sv.bucketNameFails with
  | true => simp [hk, hm, htk, ht, hc, hb, respond] at h
  | false =>
  cases hr : readObject sv st template.Filename with
  | none => simp [hk, hm, htk, ht, hc, hb, hr, respond] at h
  | some bytes =>
  cases hd : lib.Decode bytes with
  | none => simp [hk, hm, htk, ht, hc, hb, hr, hd, respond] at h
  | some img =>
  cases hrm : RenderMeme lib sv.WorkerFontBytes img meme.Top meme.Bottom with
  | error e => cases e <;> simp [hk, hm, htk, ht, hc, hb, hr, hd, hrm, respond] at h
  | ok canvas =>
  cases he : lib.Encode canvas with
  | none => simp [hk, hm, htk, ht, hc, hb, hr, hd, hrm, he, respond] at h
  | some png =>
  cases hcl : sv.closeFails (memeID ++ ".png") with
  | true => simp [hk, hm, htk, ht, hc, hb, hr, hd, hrm, he, hcl, respond] at h
  | false =>
  cases hacl : sv.aclFails (memeID ++ ".png") with
  | true => simp [hk, hm, htk, ht, hc, hb, hr, hd, hrm, he, hcl, hacl, respond] at h
  | false =>
  cases hput : sv.putFails with
  | true => simp [hk, hm, htk, ht, hc, hb, hr, hd, hrm, he, hcl, hacl, hput, respond] at h
  | false =>
  refine ⟨memeKey, meme, template, png, ?_, ?_⟩
  · exact ⟨hk, hm, ⟨templateKey, htk, ht⟩, hc, hb, ⟨bytes, img, canvas, hr, hd, hrm, he⟩, hcl,
      hacl, hput⟩
  · simp [hk, hm, htk, ht, hc, hb, hr, hd, hrm, he, hcl, hacl, hput, doneState]

/-- A worker run that does not answer 200 leaves the record store as it
was. -/
theorem WorkerHandler_failed_records (lib : Library) (sv : Services) (st : State)
    (memeID : String) (h : (WorkerHandler lib sv st memeID).1.status ≠ 200) :
    (WorkerHandler lib sv st memeID).2.records = st.records := by
  unfold WorkerHandler at h ⊢
  cases hk : sv.DecodeKey memeID with
  | none => simp [hk]
  | some memeKey =>
  cases hm : getMeme sv st memeKey with
  | noSuchEntity => simp [hk, hm]
  | failed => simp [hk, hm]
  | ok meme =>
  cases htk : sv.DecodeKey meme.TemplateID with
  | none => simp [hk, hm, htk]
  | some templateKey =>
  cases ht : getTemplate sv st templateKey with
  | noSuchEntity => simp [hk, hm, htk, ht]
  | failed => simp [hk, hm, htk, ht]
  | ok template =>
  cases hc : sv.newClientFails with
  | true => simp [hk, hm, htk, ht, hc]
  | false =>
  cases hb : sv.bucketNameFails with
  | true => simp [hk, hm, htk, ht, hc, hb]
  | false =>
  cases hr : readObject sv st template.Filename with
  | none => simp [hk, hm, htk, ht, hc, hb, hr]
  | some bytes =>
  cases hd : lib.Decode bytes with
  | none => simp [hk, hm, htk, ht, hc, hb, hr, hd]
  | some img =>
  cases hrm : RenderMeme lib sv.WorkerFontBytes img meme.Top meme.Bottom with
  | error e => cases e <;> simp [hk, hm, htk, ht, hc, hb, hr, hd, hrm]
  | ok canvas =>
  cases he : lib.Encode canvas with
  | none => simp [hk, hm, htk, ht, hc, hb, hr, hd, hrm, he]
  | some png =>
  cases hcl : sv.closeFails (memeID ++ ".png") with
  | true => simp [hk, hm, htk, ht, hc, hb, hr, hd, hrm, he, hcl]
  | false =>
  cases hacl : sv.aclFails (memeID ++ ".png") with
  | true => simp [hk, hm, htk, ht, hc, hb, hr, hd, hrm, he, hcl, hacl]
  | false =>
  cases hput : sv.putFails with
  | true => simp [hk, hm, htk, ht, hc, hb, hr, hd, hrm, he, hcl, hacl, hput]
  | false => simp [hk, hm, htk, ht, hc, hb, hr, hd, hrm, he, hcl, hacl, hput, respond] at h

/-- When every step succeeds the run answers 200 and leaves `doneState`. -/
theorem WorkerHandler_of_steps (lib : Library) (sv : Services) (st : State) (memeID : String)
    (memeKey : Key) (meme : Meme) (template : Template) (png : List Nat)
    (h : WorkerSteps lib sv st memeID memeKey meme template png) :
    WorkerHandler lib sv st memeID = (respond 200 "", doneState st memeID memeKey meme png) := by
  obtain ⟨hk, hm, ⟨templateKey, htk, ht⟩, hc, hb, ⟨bytes, img, canvas, hr, hd, hrm, he⟩, hcl,
    hacl, hput⟩ := h
  simp [WorkerHandler, hk, hm, htk, ht, hc, hb, hr, hd, hrm, he, hcl, hacl, hput, doneState]

theorem getMeme_ok {sv : Services} {st : State} {key : Key} {m : Meme}
    (h : getMeme sv st key = .ok m) :
    sv.getFails key = false ∧ st.records key = some (.meme m) := by
  unfold getMeme at h
  cases hf : sv.getFails key with
  | true => simp [hf] at h
  | false =>
    cases hr : st.records key with
    | none => simp [hf, hr] at h
    | some e =>
      cases e with
      | meme m1 => simp [hf, hr] at h; rw [h]; exact ⟨rfl, rfl⟩
      | template t => simp [hf, hr] at h

theorem getTemplate_ok {sv : Services} {st : State} {key : Key} {t : Template}
    (h : getTemplate sv st key = .ok t) :
    sv.getFails key = false ∧ st.records key = some (.template t) := by
  unfold getTemplate at h
  cases hf : sv.getFails key with
  | true => simp [hf] at h
  | false =>
    cases hr : st.records key with
    | none => simp [hf, hr] at h
    | some e =>
      cases e with
      | meme m1 => simp [hf, hr] at h
      | template t1 => simp [hf, hr] at h; rw [h]; exact ⟨rfl, rfl⟩

/-- C8: for every worker run, the record store changes only if every step
succeeded (the Meme and its Template were found, the template image was read
and decoded, `RenderMeme` succeeded, and the PNG was written, closed and made
public), and then the change is the Meme rewritten with status "done"; if any
step fails the run does not answer 200 and leaves the record store as it was;
in particular when the Template the Meme refers to does not exist the record
store is unchanged and the Meme record stays as it was stored. -/
theorem WorkerHandler_done_only_after_all_steps (lib : Library) (sv : Services) (st : State)
    (memeID : String) :
    ((WorkerHandler lib sv st memeID).2.records ≠ st.records →
      ∃ memeKey meme template png, WorkerSteps lib sv st memeID memeKey meme template png ∧
        (WorkerHandler lib sv st memeID).2.records =
          Function.update st.records memeKey (some (.meme { meme with Status := "done" }))) ∧
    ((¬ ∃ memeKey meme template png, WorkerSteps lib sv st memeID memeKey meme template png) →
      (WorkerHandler lib sv st memeID).1.status ≠ 200 ∧
      (WorkerHandler lib sv st memeID).2.records = st.records) ∧
    (∀ memeKey meme templateKey, sv.DecodeKey memeID = some memeKey →
      st.records memeKey = some (.meme meme) →
      sv.DecodeKey meme.TemplateID = some templateKey → st.records templateKey = none →
      (WorkerHandler lib sv st memeID).1.status ≠ 200 ∧
      (WorkerHandler lib sv st memeID).2.records = st.records ∧
      (WorkerHandler lib sv st memeID).2.records memeKey = some (.meme meme)) := by
  have hfail : (¬ ∃ memeKey meme template png,
      WorkerSteps lib sv st memeID memeKey meme template png) →
      (WorkerHandler lib sv st memeID).1.status ≠ 200 ∧
      (WorkerHandler lib sv st memeID).2.records = st.records := by
    intro hno
    have hst : (WorkerHandler lib sv st memeID).1.status ≠ 200 := by
      intro h200
      obtain ⟨k, m, t, png, hs, _⟩ := WorkerHandler_ok lib sv st memeID h200
      exact hno ⟨k, m, t, png, hs⟩
    exact ⟨hst, WorkerHandler_failed_records lib sv st memeID hst⟩
  refine ⟨?_, hfail, ?_⟩
  · intro hne
    have h200 : (WorkerHandler lib sv st memeID).1.status = 200 := by
      by_contra hc
      exact hne (WorkerHandler_failed_records lib sv st memeID hc)
    obtain ⟨k, m, t, png, hs, heq⟩ := WorkerHandler_ok lib sv st memeID h200
    exact ⟨k, m, t, png, hs, by rw [heq]; rfl⟩
  · intro memeKey meme templateKey hk hm htk hnone
    have hno : ¬ ∃ memeKey meme template png,
        WorkerSteps lib sv st memeID memeKey meme template png := by
      rintro ⟨k, m, t, png, hk1, hm1, ⟨tk, htk1, ht1⟩, _⟩
      rw [hk] at hk1
      cases hk1
      have hm2 := (getMeme_ok hm1).2
      rw [hm] at hm2
      cases hm2
      rw [htk] at htk1
      cases htk1
      have ht2 := (getTemplate_ok ht1).2
      rw [hnone] at ht2
      cases ht2
    obtain ⟨h1, h2⟩ := hfail hno
    exact ⟨h1, h2, by rw [h2]; exact hm⟩

/-- Witness of C8: the Meme `M1` refers to the Template `T2`, which does not
exist. -/
theorem WorkerHandler_done_only_after_all_steps_witness :
    sampleServices.DecodeKey "M1" = some ⟨"Meme", 1⟩ ∧
    missingTemplateState.records ⟨"Meme", 1⟩ = some (.meme sampleMeme) ∧
    sampleServices.DecodeKey sampleMeme.TemplateID = some ⟨"Template", 2⟩ ∧
    missingTemplateState.records ⟨"Template", 2⟩ = none ∧
    sampleMeme.Status = "created" ∧
    (WorkerHandler sampleLibrary sampleServices missingTemplateState "M1").1.status ≠ 200 ∧
    (WorkerHandler sampleLibrary sampleServices missingTemplateState "M1").2.records =
      missingTemplateState.records ∧
    (WorkerHandler sampleLibrary sampleServices missingTemplateState "M1").2.records
      ⟨"Meme", 1⟩ = some (.meme sampleMeme) :=
  ⟨by decide, by decide, by decide, by decide, by decide,
    (WorkerHandler_done_only_after_all_steps sampleLibrary sampleServices missingTemplateState
      "M1").2.2 ⟨"Meme", 1⟩ sampleMeme ⟨"Template", 2⟩ (by decide) (by decide) (by decide)
      (by decide)⟩

/-- C9 (amended): for every Meme id and every state in which a worker run for
that id succeeds, provided the file of the Template the Meme refers to is not
the output object `<id>.png` itself, a second run for the same id on the state
the first run left succeeds, writes the same bytes to `<id>.png`, and leaves
the record store and the blob store equal to their state after the first
run. -/
theorem WorkerHandler_idempotent (lib : Library) (sv : Services) (st : State) (memeID : String)
    (h1 : (WorkerHandler lib sv st memeID).1.status = 200)
    (hne : ∀ memeKey meme templateKey template, sv.DecodeKey memeID = some memeKey →
      st.records memeKey = some (.meme meme) →
      sv.DecodeKey meme.TemplateID = some templateKey →
      st.records templateKey = some (.template template) →
      template.Filename ≠ memeID ++ ".png") :
    WorkerHandler lib sv (WorkerHandler lib sv st memeID).2 memeID =
      (respond 200 "", (WorkerHandler lib sv st memeID).2) ∧
    ∃ png, (WorkerHandler lib sv st memeID).2.blobs (memeID ++ ".png") = some ⟨png, true⟩ ∧
      (WorkerHandler lib sv (WorkerHandler lib sv st memeID).2 memeID).2.blobs
        (memeID ++ ".png") = some ⟨png, true⟩ := by
  obtain ⟨k, m, t, png, hs, heq⟩ := WorkerHandler_ok lib sv st memeID h1
  obtain ⟨hk, hm, ⟨tk, htk, ht⟩, hc, hb, ⟨bytes, img, canvas, hr, hd, hrm, he⟩, hcl, hacl,
    hput⟩ := hs
  have hmr := getMeme_ok hm
  have htr := getTemplate_ok ht
  have hfile : t.Filename ≠ memeID ++ ".png" := hne k m tk t hk hmr.2 htk htr.2
  have hkeys : tk ≠ k := by
    intro e
    rw [e, hmr.2] at htr
    cases htr.2
  have hs2 : WorkerSteps lib sv (doneState st memeID k m png) memeID k
      { m with Status := "done" } t png := by
    refine ⟨hk, ?_, ⟨tk, htk, ?_⟩, hc, hb, ⟨bytes, img, canvas, ?_, hd, hrm, he⟩, hcl, hacl,
      hput⟩
    · simp [getMeme, hmr.1, doneState]
    · simp [getTemplate, htr.1, doneState, Function.update_noteq hkeys, htr.2]
    · unfold readObject at hr ⊢
      simpa [doneState, Function.update_noteq hfile] using hr
  have h2 := WorkerHandler_of_steps lib sv _ memeID k _ t png hs2
  have hidem : doneState (doneState st memeID k m png) memeID k { m with Status := "done" } png =
      doneState st memeID k m png := by
    simp [doneState, Function.update_idem]
  rw [heq]
  simp only
  rw [h2, hidem]
  exact ⟨rfl, png, by simp [doneState], by simp [doneState]⟩

/-- Witness of C9: the template file is `cat.png`, the output `M1.png`. -/
theorem WorkerHandler_idempotent_witness :
    (WorkerHandler sampleLibrary sampleServices (readyState "cat.png") "M1").1.status = 200 ∧
    "cat.png" ≠ "M1" ++ ".png" ∧
    WorkerHandler sampleLibrary sampleServices
        (WorkerHandler sampleLibrary sampleServices (readyState "cat.png") "M1").2 "M1" =
      (respond 200 "", (WorkerHandler sampleLibrary sampleServices (readyState "cat.png") "M1").2) ∧
    ∃ png,
      (WorkerHandler sampleLibrary sampleServices (readyState "cat.png") "M1").2.blobs
        ("M1" ++ ".png") = some ⟨png, true⟩ ∧
      (WorkerHandler sampleLibrary sampleServices
        (WorkerHandler sampleLibrary sampleServices (readyState "cat.png") "M1").2 "M1").2.blobs
        ("M1" ++ ".png") = some ⟨png, true⟩ :=
  ⟨by decide, by decide,
    WorkerHandler_idempotent sampleLibrary sampleServices (readyState "cat.png") "M1" (by decide)
      (by
        intro memeKey meme templateKey template hk hm htk ht
        have h0 : sampleServices.DecodeKey "M1" = some ⟨"Meme", 1⟩ := by decide
        rw [h0] at hk
        cases hk
        have h1 : (readyState "cat.png").records ⟨"Meme", 1⟩ = some (.meme sampleMeme) := by
          decide
        rw [h1] at hm
        cases hm
        have h2 : sampleServices.DecodeKey sampleMeme.TemplateID = some ⟨"Template", 2⟩ := by
          decide
        rw [h2] at htk
        cases htk
        have h3 : (readyState "cat.png").records ⟨"Template", 2⟩ =
            some (.template ⟨0, "cat.png"⟩) := by decide
        rw [h3] at ht
        cases ht
        decide)⟩

/-- C9 as stated fails: when the file of the Template is the output object
`M1.png` itself, the first run overwrites it with the rendered image, the
second run renders over that image, and the bytes of `M1.png` after the second
run differ from those after the first. -/
theorem WorkerHandler_rerun_over_own_output :
    (WorkerHandler sampleLibrary sampleServices (readyState "M1.png") "M1").1.status = 200 ∧
    (WorkerHandler sampleLibrary sampleServices
      (WorkerHandler sampleLibrary sampleServices (readyState "M1.png") "M1").2 "M1").1.status
      = 200 ∧
    ((WorkerHandler sampleLibrary sampleServices (readyState "M1.png") "M1").2.blobs "M1.png").map
      (fun o => o.data.take 3) = some [1, 28, 32767] ∧
    ((WorkerHandler sampleLibrary sampleServices
      (WorkerHandler sampleLibrary sampleServices (readyState "M1.png") "M1").2 "M1").2.blobs
      "M1.png").map (fun o => o.data.take 3) = some [1, 28, 49151] ∧
    (WorkerHandler sampleLibrary sampleServices
      (WorkerHandler sampleLibrary sampleServices (readyState "M1.png") "M1").2 "M1").2.blobs
      "M1.png" ≠
    (WorkerHandler sampleLibrary sampleServices (readyState "M1.png") "M1").2.blobs "M1.png" := by
  decide

end Memecreator

namespace Memecreator

/-! ## Submission -/

/-- C10: for every submission that passes the checks of `PostMemesHandler`
and reaches the record write: when the write succeeds, the Meme is in the
record store under the key the store assigned, with status "created" and the
submitted templateID, top and bottom, in the very state in which the task is
then enqueued, and no task has been added yet; if the enqueue succeeds exactly
one task is appended, its `meme_id` is the encoded key of that record, and the
response is 201; if the enqueue fails the state keeps the record with status
"created", no task is added, and the response is 500. (When the write itself
fails the response is 500 and nothing is stored or enqueued.) -/
theorem PostMemesHandler_store_then_enqueue (sv : Services) (st : State) (r : Request)
    (cmd : CreateMemeCommand) (hm : r.Method = "POST")
    (hct : sv.ParseMediaType r.ContentType = some "application/json")
    (hd : decodeLoop r.Body (some ⟨"", "", ""⟩) = .ok (some cmd)) :
    let memeKey : Key := ⟨MemeKind, sv.newID⟩
    let meme : Meme := ⟨sv.now, "created", cmd.TemplateID, cmd.Top, cmd.Bottom⟩
    let st1 : State := { st with records := Function.update st.records memeKey (some (.meme meme)) }
    let task : Task := ⟨"/worker", sv.EncodeKey memeKey⟩
    (sv.putFails = true → PostMemesHandler sv st r = (respond 500 "storing meme in datastore failed", st)) ∧
    (sv.putFails = false →
      putNewMeme sv st cmd = some (memeKey, st1) ∧
      st1.records memeKey = some (.meme meme) ∧ st1.tasks = st.tasks ∧ st1.blobs = st.blobs ∧
      PostMemesHandler sv st r =
        (match addTask sv st1 task with
          | none => (respond 500 "adding task in queue failed", st1)
          | some st2 => (⟨201, "/memes/" ++ sv.EncodeKey memeKey, ""⟩, st2)) ∧
      (sv.addFails = false →
        PostMemesHandler sv st r =
          (⟨201, "/memes/" ++ sv.EncodeKey memeKey, ""⟩, { st1 with tasks := st.tasks ++ [task] })) ∧
      (sv.addFails = true →
        PostMemesHandler sv st r = (respond 500 "adding task in queue failed", st1))) := by
  intro memeKey meme st1 task
  have hpost : PostMemesHandler sv st r = storeAndEnqueue sv st cmd := by
    simp [PostMemesHandler, hm, hct, hd]
  refine ⟨?_, ?_⟩
  · intro hput
    simp [hpost, storeAndEnqueue, putNewMeme, hput]
  · intro hput
    have hp : putNewMeme sv st cmd = some (memeKey, st1) := by
      simp [putNewMeme, hput, memeKey, st1, meme]
    refine ⟨hp, by simp [st1], rfl, rfl, ?_, ?_, ?_⟩
    · rw [hpost]
      simp only [storeAndEnqueue, hp]
    · intro hadd
      rw [hpost]
      simp [storeAndEnqueue, hp, addTask, hadd, task, st1]
    · intro hadd
      rw [hpost]
      simp [storeAndEnqueue, hp, addTask, hadd]

/-- Witness of C10: the submission of the end-to-end scenario. -/
theorem PostMemesHandler_store_then_enqueue_witness :
    sampleServices.putFails = false ∧ sampleServices.addFails = false ∧
    PostMemesHandler sampleServices emptyState
        ⟨"POST", "application/json", [.object (some "T2") (some "ONE") (some "DOES NOT SIMPLY")]⟩ =
      (⟨201, "/memes/" ++ sampleServices.EncodeKey ⟨MemeKind, 7⟩, ""⟩,
        { records := Function.update emptyState.records ⟨MemeKind, 7⟩
            (some (.meme ⟨1000, "created", "T2", "ONE", "DOES NOT SIMPLY"⟩))
          blobs := emptyState.blobs
          tasks := emptyState.tasks ++ [⟨"/worker", sampleServices.EncodeKey ⟨MemeKind, 7⟩⟩] }) :=
  ⟨rfl, rfl,
    ((PostMemesHandler_store_then_enqueue sampleServices emptyState
      ⟨"POST", "application/json", [.object (some "T2") (some "ONE") (some "DOES NOT SIMPLY")]⟩
      ⟨"T2", "ONE", "DOES NOT SIMPLY"⟩ rfl rfl rfl).2 rfl).2.2.2.2.2.1 rfl⟩

end Memecreator

namespace Memecreator

/-! ## Validation of a submission -/

/-- The command the decoding loop leaves for a body of one JSON object:
members the object does not have stay empty. -/
theorem decodeLoop_single_object (t p b : Option String) :
    decodeLoop [.object t p b] (some ⟨"", "", ""⟩) =
      .ok (some ⟨t.getD "", p.getD "", b.getD ""⟩) := by
  simp [decodeLoop]

/-- C11 (amended): `PostMemesHandler` checks the method, the media type and
that the body decodes, and nothing else. It writes a record or enqueues a
task only for a POST request of media type `application/json` whose body
decodes to a command; every other request leaves the state as it was and is
not answered 201. It does not check which members the body supplies: an empty
body, and a body of one object, are stored and enqueued with the members the
object does not have left empty. -/
theorem PostMemesHandler_checks_decoding_only (sv : Services) (st : State) (r : Request) :
    (((PostMemesHandler sv st r).2.records ≠ st.records ∨
        (PostMemesHandler sv st r).2.tasks ≠ st.tasks) →
      r.Method = "POST" ∧ sv.ParseMediaType r.ContentType = some "application/json" ∧
      ∃ cmd, decodeLoop r.Body (some ⟨"", "", ""⟩) = .ok (some cmd)) ∧
    ((¬ (r.Method = "POST" ∧ sv.ParseMediaType r.ContentType = some "application/json" ∧
        ∃ cmd, decodeLoop r.Body (some ⟨"", "", ""⟩) = .ok (some cmd))) →
      (PostMemesHandler sv st r).2 = st ∧ (PostMemesHandler sv st r).1.status ≠ 201) ∧
    (r.Method = "POST" → sv.ParseMediaType r.ContentType = some "application/json" →
      (r.Body = [] → PostMemesHandler sv st r = storeAndEnqueue sv st ⟨"", "", ""⟩) ∧
      (∀ t p b, r.Body = [.object t p b] →
        PostMemesHandler sv st r = storeAndEnqueue sv st ⟨t.getD "", p.getD "", b.getD ""⟩)) := by
  have hrej : (¬ (r.Method = "POST" ∧
      sv.ParseMediaType r.ContentType = some "application/json" ∧
      ∃ cmd, decodeLoop r.Body (some ⟨"", "", ""⟩) = .ok (some cmd))) →
      (PostMemesHandler sv st r).2 = st ∧ (PostMemesHandler sv st r).1.status ≠ 201 := by
    intro hno
    unfold PostMemesHandler
    by_cases hm : r.Method = "POST"
    · cases hp : sv.ParseMediaType r.ContentType with
      | none => simp [hm, respond]
      | some mt =>
        by_cases hmt : mt = "application/json"
        · subst hmt
          cases hd : decodeLoop r.Body (some ⟨"", "", ""⟩) with
          | error e => simp [hm, respond]
          | ok c =>
            cases c with
            | none => simp [hm, respond]
            | some cmd => exact absurd ⟨hm, hp, cmd, hd⟩ hno
        · simp [hm, hmt, respond]
    · simp [hm, respond]
  refine ⟨?_, hrej, ?_⟩
  · intro hch
    by_contra hno
    have h := (hrej hno).1
    rw [h] at hch
    simp at hch
  · intro hm hp
    constructor
    · intro hb
      simp [PostMemesHandler, hm, hp, hb, decodeLoop]
    · intro t p b hb
      simp [PostMemesHandler, hm, hp, hb, decodeLoop]

/-- Witness of C11: a body that is not JSON is answered 400 and changes
nothing. -/
theorem PostMemesHandler_checks_decoding_only_witness :
    (¬ (("POST" : String) = "POST" ∧
      sampleServices.ParseMediaType "application/json" = some "application/json" ∧
      ∃ cmd, decodeLoop [JsonDoc.invalid] (some ⟨"", "", ""⟩) = .ok (some cmd))) ∧
    (PostMemesHandler sampleServices emptyState ⟨"POST", "application/json", [.invalid]⟩).2 =
      emptyState ∧
    (PostMemesHandler sampleServices emptyState
      ⟨"POST", "application/json", [.invalid]⟩).1.status ≠ 201 :=
  ⟨by simp [decodeLoop],
    (PostMemesHandler_checks_decoding_only sampleServices emptyState
      ⟨"POST", "application/json", [.invalid]⟩).2.1 (by simp [decodeLoop])⟩

/-- C11 as stated fails: a POST request of media type `application/json`
whose body is empty, or is the object without members, is answered 201; a
Meme with empty templateID, top and bottom is written and a task for it is
enqueued. -/
theorem PostMemesHandler_stores_empty_submission :
    (PostMemesHandler sampleServices emptyState ⟨"POST", "application/json", []⟩).1.status = 201 ∧
    (PostMemesHandler sampleServices emptyState ⟨"POST", "application/json", []⟩).2.records
      ⟨"Meme", 7⟩ = some (.meme ⟨1000, "created", "", "", ""⟩) ∧
    (PostMemesHandler sampleServices emptyState ⟨"POST", "application/json", []⟩).2.tasks =
      [⟨"/worker", "M7"⟩] ∧
    emptyState.records ⟨"Meme", 7⟩ = none ∧ emptyState.tasks = [] ∧
    (PostMemesHandler sampleServices emptyState
      ⟨"POST", "application/json", [.object none none none]⟩).1.status = 201 ∧
    (PostMemesHandler sampleServices emptyState
      ⟨"POST", "application/json", [.object none none none]⟩).2.records ⟨"Meme", 7⟩ =
      some (.meme ⟨1000, "created", "", "", ""⟩) ∧
    (PostMemesHandler sampleServices emptyState
      ⟨"POST", "application/json", [.object none none none]⟩).2.tasks = [⟨"/worker", "M7"⟩] := by
  decide

/-! ## Monotonicity of the fitted size -/

/-- C12: for every font, every text and all widths `w1 ≤ w2` representable
in `fixed.Int26_6`, the size `computeFontSize` returns for `w2` is at least
the size it returns for `w1`, and both sizes are among 72, 48, 36 and 24. -/
theorem computeFontSize_monotone (f : Font) (text : String) (w1 w2 : Int)
    (h1 : InInt26_6 w1) (h2 : InInt26_6 w2) (hle : w1 ≤ w2) :
    (computeFontSize f text w1).2 ≤ (computeFontSize f text w2).2 ∧
    (computeFontSize f text w1).2 ∈ candidateSizes ∧
    (computeFontSize f text w2).2 ∈ candidateSizes := by
  simp only [computeFontSize, candidateSizes, computeFontSizeLoop, toInt26_6_of_in h1,
    toInt26_6_of_in h2]
  generalize text.toList = cs
  generalize textWidth f 72 cs = a
  generalize textWidth f 48 cs = b
  generalize textWidth f 36 cs = c
  generalize textWidth f 24 cs = d
  split_ifs <;> simp <;> omega

/-- Witness of C12: "ab" is fitted at 48 against 100 and at 72 against 200. -/
theorem computeFontSize_monotone_witness :
    InInt26_6 100 ∧ InInt26_6 200 ∧ (100 : Int) ≤ 200 ∧
    (computeFontSize sampleFont "ab" 100).2 = 48 ∧ (computeFontSize sampleFont "ab" 200).2 = 72 ∧
    (computeFontSize sampleFont "ab" 100).2 ≤ (computeFontSize sampleFont "ab" 200).2 ∧
    (computeFontSize sampleFont "ab" 100).2 ∈ candidateSizes ∧
    (computeFontSize sampleFont "ab" 200).2 ∈ candidateSizes :=
  ⟨by decide, by decide, by decide, by decide, by decide,
    computeFontSize_monotone sampleFont "ab" 100 200 (by decide) (by decide) (by decide)⟩

end Memecreator
